import Mathlib

/-!
# flowPY front-end: resource access core

A shallow embedding of the service layer (`service/errorHandler.js`,
`service/axios.js`, `service/workflowService.js`, `service/credentialService.js`,
`service/componentService.js`) and of the list pages (`components/Chatflows/chatflows.js`,
`components/Credentials.js`), followed by theorems about them.

Conventions of the embedding.
* JavaScript values that come from the network (response bodies, list items) are
  values of `JSValue`; numbers are modelled by integers.
* The two process-wide output channels, the `antd` toast channel (`message.error`)
  and the browser console, are explicit lists inside `World`, threaded through
  every function that writes to them.
* An `async` function is modelled by the value it settles with:
  `Except.ok v` for a fulfilled promise, `Except.error t` for a rejected one.
* The remote API is a function from the request that is sent to the outcome of the
  HTTP exchange.
-/

namespace FlowPY

/-! ## JavaScript values -/

/-- JavaScript values as they occur in JSON payloads, plus `undefined`.
An object is the list of its own properties. -/
inductive JSValue where
  | undefined : JSValue
  | null : JSValue
  | bool (b : Bool) : JSValue
  | number (n : Int) : JSValue
  | string (s : String) : JSValue
  | array (items : List JSValue) : JSValue
  | object (fields : List (String × JSValue)) : JSValue

namespace JSValue

/-- ToBoolean: `undefined`, `null`, `false`, `0` and `''` are falsy, every other value is truthy. -/
def truthy : JSValue → Bool
  | undefined => false
  | null => false
  | bool b => b
  | number n => n != 0
  | string s => s != ""
  | array _ => true
  | object _ => true

/-- The JavaScript operator `a || b`. -/
def orElse (a b : JSValue) : JSValue :=
  if a.truthy then a else b

/-- Own-property lookup in a property list; a missing key reads as `undefined`. -/
def lookupField (key : String) : List (String × JSValue) → JSValue
  | [] => undefined
  | (k, v) :: rest => if k = key then v else lookupField key rest

/-- The optional-chaining read `v?.key` for a key that is not a built-in member
(`name`, `error`, `message`): `undefined` on `null`/`undefined`, the own property on
an object, and `undefined` on primitives and arrays, which carry no such key. -/
def optField (v : JSValue) (key : String) : JSValue :=
  match v with
  | object fields => lookupField key fields
  | _ => undefined

/-- Whether the value is a string (`typeof v === 'string'`). -/
def isString : JSValue → Bool
  | string _ => true
  | _ => false

/-- Whether the value is a string of positive length. -/
def isNonEmptyString : JSValue → Bool
  | string s => s != ""
  | _ => false

/-- A caller-supplied optional string as a value: absent is `null`. -/
def ofOptString : Option String → JSValue
  | none => null
  | some s => string s

end JSValue

/-- Runtime errors raised by the language itself. -/
inductive JSError where
  | typeError : JSError
  deriving DecidableEq

/-! ## Transport data -/

/-- The response object handed over by the HTTP client: `status` and the parsed body `data`. -/
structure AxiosResponse where
  status : Option Int
  data : JSValue

/-- The error object the HTTP client rejects with: `response` is absent for a
network failure or a timeout and present for a non-2xx answer. -/
structure AxiosError where
  response : Option AxiosResponse

/-- A value given to `handleApiError` as the failure (what a `catch` clause binds). -/
inductive Failure where
  | undefined : Failure
  | null : Failure
  | error (e : AxiosError) : Failure

/-- What a rejected `async` function carries: a failure passed on unchanged, or a
runtime error raised inside the function. -/
inductive Thrown where
  | failure (f : Failure) : Thrown
  | runtime (e : JSError) : Thrown

/-! ## Output channels -/

inductive ConsoleLevel where
  | log : ConsoleLevel
  | error : ConsoleLevel
  deriving DecidableEq

/-- The second argument of a console call. -/
inductive ConsoleArg where
  | absent : ConsoleArg
  | failure (f : Failure) : ConsoleArg
  | response (r : AxiosResponse) : ConsoleArg

structure ConsoleEntry where
  level : ConsoleLevel
  label : String
  arg : ConsoleArg

/-- The two output channels: `notifications` holds the arguments of the
`message.error` calls, `console` the console calls, both oldest first. -/
structure World where
  notifications : List JSValue
  console : List ConsoleEntry

namespace World

def empty : World := ⟨[], []⟩

/-- The call `message.error(content)`. -/
def messageError (w : World) (content : JSValue) : World :=
  ⟨w.notifications ++ [content], w.console⟩

/-- The call `console.log(label, arg)`. -/
def consoleLog (w : World) (label : String) (arg : ConsoleArg) : World :=
  ⟨w.notifications, w.console ++ [⟨ConsoleLevel.log, label, arg⟩]⟩

/-- The call `console.error(label, arg)`. -/
def consoleError (w : World) (label : String) (arg : ConsoleArg) : World :=
  ⟨w.notifications, w.console ++ [⟨ConsoleLevel.error, label, arg⟩]⟩

end World

/-! ## `service/errorHandler.js` -/

/-- The table `HTTP_STATUS_MESSAGES`. -/
def HTTP_STATUS_MESSAGES (status : Int) : Option String :=
  if status = 400 then some "请求参数错误，请检查输入"
  else if status = 401 then some "未授权访问，请先登录"
  else if status = 403 then some "您没有权限执行此操作"
  else if status = 404 then some "请求的资源不存在"
  else if status = 500 then some "服务器错误，请稍后再试"
  else if status = 502 then some "网关错误，请检查网络连接"
  else if status = 503 then some "服务暂时不可用，请稍后再试"
  else none

/-- The read `HTTP_STATUS_MESSAGES[status]`: `undefined` without a status or without an entry. -/
def statusMessage (status : Option Int) : JSValue :=
  match status with
  | none => JSValue.undefined
  | some n =>
    match HTTP_STATUS_MESSAGES n with
    | none => JSValue.undefined
    | some m => JSValue.string m

/-- The last operand of the message chain in `handleApiError`. -/
def genericMessage : String := "请求失败，请稍后再试"

/-- The object returned by `handleApiError`. -/
structure NormalizedError where
  isError : Bool
  status : Option Int
  message : JSValue
  originalError : Failure

/-- The read `error.response?.status` on an error object. -/
def AxiosError.status (e : AxiosError) : Option Int :=
  match e.response with
  | none => none
  | some r => r.status

/-- The read `error.response?.data?.[key]` on an error object. -/
def AxiosError.dataField (e : AxiosError) (key : String) : JSValue :=
  match e.response with
  | none => JSValue.undefined
  | some r => r.data.optField key

/-- The expression `error.response?.data?.error || error.response?.data?.message`. -/
def AxiosError.serverMessage (e : AxiosError) : JSValue :=
  (e.dataField "error").orElse (e.dataField "message")

/-- The function `handleApiError(error, customMessage = null)`.
The console call comes first; reading `error.response` on `null` or `undefined`
raises a `TypeError` before any toast is shown. -/
def handleApiError (error : Failure) (customMessage : Option String) (w : World) :
    Except JSError NormalizedError × World :=
  let w1 := w.consoleError "API错误:" (ConsoleArg.failure error)
  match error with
  | Failure.undefined => (Except.error JSError.typeError, w1)
  | Failure.null => (Except.error JSError.typeError, w1)
  | Failure.error e =>
    let status := e.status
    let serverMessage := e.serverMessage
    let displayMessage :=
      (((JSValue.ofOptString customMessage).orElse serverMessage).orElse
        (statusMessage status)).orElse (JSValue.string genericMessage)
    let w2 := w1.messageError displayMessage
    (Except.ok ⟨true, status, displayMessage, error⟩, w2)

/-! ## `service/axios.js` -/

inductive Method where
  | GET : Method
  | POST : Method
  | PUT : Method
  | DELETE : Method
  deriving DecidableEq

/-- The request that leaves the client: method, path below the base address, body. -/
structure Request where
  method : Method
  url : String
  data : Option JSValue

/-- The remote API together with the network: the outcome of the HTTP exchange for a
request. The client fulfils with the response or rejects with a failure. -/
abbrev Remote := Request → Except Failure AxiosResponse

namespace httpClient

/-- The fulfilment handler of the request interceptor: `config => config`. -/
def requestInterceptor (config : Request) : Request := config

/-- The two handlers of the response interceptor: a response is handed on unchanged;
an error is written to the console and rejected again. -/
def responseInterceptor (outcome : Except Failure AxiosResponse) (w : World) :
    Except Failure AxiosResponse × World :=
  match outcome with
  | Except.ok response => (Except.ok response, w)
  | Except.error error =>
    (Except.error error, w.consoleError "请求错误:" (ConsoleArg.failure error))

/-- One request through both interceptor chains. -/
def request (remote : Remote) (config : Request) (w : World) :
    Except Failure AxiosResponse × World :=
  responseInterceptor (remote (requestInterceptor config)) w

def get (remote : Remote) (url : String) (w : World) :
    Except Failure AxiosResponse × World :=
  request remote ⟨Method.GET, url, none⟩ w

def post (remote : Remote) (url : String) (data : JSValue) (w : World) :
    Except Failure AxiosResponse × World :=
  request remote ⟨Method.POST, url, some data⟩ w

def put (remote : Remote) (url : String) (data : JSValue) (w : World) :
    Except Failure AxiosResponse × World :=
  request remote ⟨Method.PUT, url, some data⟩ w

def delete (remote : Remote) (url : String) (w : World) :
    Except Failure AxiosResponse × World :=
  request remote ⟨Method.DELETE, url, none⟩ w

end httpClient

/-- The settled value of a service call together with the output channels after it. -/
abbrev ServiceResult := Except Thrown JSValue × World

/-- The end of a `catch` block that returns `fallback` after `handleApiError`. -/
def swallowAfter (handled : Except JSError NormalizedError × World) (fallback : JSValue) :
    ServiceResult :=
  match handled with
  | (Except.ok _, w) => (Except.ok fallback, w)
  | (Except.error t, w) => (Except.error (Thrown.runtime t), w)

/-- The end of a `catch` block that runs `throw error` after `handleApiError`. -/
def rethrowAfter (handled : Except JSError NormalizedError × World) (error : Failure) :
    ServiceResult :=
  match handled with
  | (Except.ok _, w) => (Except.error (Thrown.failure error), w)
  | (Except.error t, w) => (Except.error (Thrown.runtime t), w)

/-- The value of `error.response || error` for the console call in `getAllWorkflows`;
`none` when reading `error.response` raises. -/
def responseOrError (error : Failure) : Option ConsoleArg :=
  match error with
  | Failure.undefined => none
  | Failure.null => none
  | Failure.error e =>
    match e.response with
    | some r => some (ConsoleArg.response r)
    | none => some (ConsoleArg.failure error)

/-! ## `service/workflowService.js`

Identifiers are given as the text that the template literal splices into the path. -/

namespace WorkflowService

def getAllWorkflows (remote : Remote) (w : World) : ServiceResult :=
  let w1 := w.consoleLog "正在请求工作流列表..." ConsoleArg.absent
  match httpClient.get remote "workflows/" w1 with
  | (Except.ok response, w2) =>
    (Except.ok response.data, w2.consoleLog "请求成功:" (ConsoleArg.response response))
  | (Except.error error, w2) =>
    match responseOrError error with
    | none => (Except.error (Thrown.runtime JSError.typeError), w2)
    | some arg =>
      let w3 := w2.consoleError "获取工作流列表错误详情:" arg
      swallowAfter (handleApiError error (some "获取工作流列表失败") w3) (JSValue.array [])

def getWorkflow (remote : Remote) (id : String) (w : World) : ServiceResult :=
  match httpClient.get remote ("workflows/" ++ id ++ "/") w with
  | (Except.ok response, w1) => (Except.ok response.data, w1)
  | (Except.error error, w1) =>
    swallowAfter (handleApiError error (some "获取工作流详情失败") w1) JSValue.null

def createWorkflow (remote : Remote) (data : JSValue) (w : World) : ServiceResult :=
  match httpClient.post remote "workflows/" data w with
  | (Except.ok response, w1) => (Except.ok response.data, w1)
  | (Except.error error, w1) =>
    rethrowAfter (handleApiError error (some "创建工作流失败") w1) error

def updateWorkflow (remote : Remote) (id : String) (data : JSValue) (w : World) :
    ServiceResult :=
  match httpClient.put remote ("workflows/" ++ id ++ "/") data w with
  | (Except.ok response, w1) => (Except.ok response.data, w1)
  | (Except.error error, w1) =>
    rethrowAfter (handleApiError error (some "更新工作流失败") w1) error

def deleteWorkflow (remote : Remote) (id : String) (w : World) : ServiceResult :=
  match httpClient.delete remote ("workflows/" ++ id ++ "/") w with
  | (Except.ok response, w1) => (Except.ok response.data, w1)
  | (Except.error error, w1) =>
    rethrowAfter (handleApiError error (some "删除工作流失败") w1) error

def executeWorkflow (remote : Remote) (id : String) (inputs : JSValue) (w : World) :
    ServiceResult :=
  match httpClient.post remote ("workflows/" ++ id ++ "/execute/")
      (JSValue.object [("inputs", inputs)]) w with
  | (Except.ok response, w1) => (Except.ok response.data, w1)
  | (Except.error error, w1) =>
    rethrowAfter (handleApiError error (some "执行工作流失败") w1) error

end WorkflowService

/-! ## `service/credentialService.js` -/

namespace CredentialService

def getAllCredentials (remote : Remote) (w : World) : ServiceResult :=
  match httpClient.get remote "credentials/" w with
  | (Except.ok response, w1) => (Except.ok response.data, w1)
  | (Except.error error, w1) =>
    swallowAfter (handleApiError error (some "获取凭证列表失败") w1) (JSValue.array [])

def getCredential (remote : Remote) (id : String) (w : World) : ServiceResult :=
  match httpClient.get remote ("credentials/" ++ id ++ "/") w with
  | (Except.ok response, w1) => (Except.ok response.data, w1)
  | (Except.error error, w1) =>
    swallowAfter (handleApiError error (some "获取凭证详情失败") w1) JSValue.null

def createCredential (remote : Remote) (data : JSValue) (w : World) : ServiceResult :=
  match httpClient.post remote "credentials/" data w with
  | (Except.ok response, w1) => (Except.ok response.data, w1)
  | (Except.error error, w1) =>
    rethrowAfter (handleApiError error (some "创建凭证失败") w1) error

def updateCredential (remote : Remote) (id : String) (data : JSValue) (w : World) :
    ServiceResult :=
  match httpClient.put remote ("credentials/" ++ id ++ "/") data w with
  | (Except.ok response, w1) => (Except.ok response.data, w1)
  | (Except.error error, w1) =>
    rethrowAfter (handleApiError error (some "更新凭证失败") w1) error

def deleteCredential (remote : Remote) (id : String) (w : World) : ServiceResult :=
  match httpClient.delete remote ("credentials/" ++ id ++ "/") w with
  | (Except.ok response, w1) => (Except.ok response.data, w1)
  | (Except.error error, w1) =>
    rethrowAfter (handleApiError error (some "删除凭证失败") w1) error

def getCredentialTypes (remote : Remote) (w : World) : ServiceResult :=
  match httpClient.get remote "credentials/types/" w with
  | (Except.ok response, w1) => (Except.ok response.data, w1)
  | (Except.error error, w1) =>
    swallowAfter (handleApiError error (some "获取凭证类型失败") w1) (JSValue.array [])

end CredentialService

/-! ## `service/componentService.js`

The four functions have no `try`/`catch`: a rejection of the awaited request leaves the
function as it is. The type is given as the text spliced into the query. -/

namespace ComponentService

def getAllComponents (remote : Remote) (w : World) : ServiceResult :=
  match httpClient.get remote "components/" w with
  | (Except.ok response, w1) => (Except.ok response.data, w1)
  | (Except.error error, w1) => (Except.error (Thrown.failure error), w1)

def getComponentsByType (remote : Remote) (type : String) (w : World) : ServiceResult :=
  match httpClient.get remote ("components/?type=" ++ type) w with
  | (Except.ok response, w1) => (Except.ok response.data, w1)
  | (Except.error error, w1) => (Except.error (Thrown.failure error), w1)

def getComponentTypes (remote : Remote) (w : World) : ServiceResult :=
  match httpClient.get remote "components/types/" w with
  | (Except.ok response, w1) => (Except.ok response.data, w1)
  | (Except.error error, w1) => (Except.error (Thrown.failure error), w1)

def getComponentCategories (remote : Remote) (w : World) : ServiceResult :=
  match httpClient.get remote "components/categories/" w with
  | (Except.ok response, w1) => (Except.ok response.data, w1)
  | (Except.error error, w1) => (Except.error (Thrown.failure error), w1)

end ComponentService

/-! ## `components/Chatflows/chatflows.js`

`String.prototype.toLowerCase` is a built-in of the language; the filter takes it as
the parameter `toLowerCase`. -/

/-- The call `s.includes(sub)` on the characters of both texts. -/
def includesChars : List Char → List Char → Bool
  | [], sub => sub.isPrefixOf []
  | c :: cs, sub => sub.isPrefixOf (c :: cs) || includesChars cs sub

/-- The call `s.includes(sub)`. -/
def includes (s sub : String) : Bool :=
  includesChars s.data sub.data

/-- The call `items.filter(callback)` with a callback that may raise: the first
raise aborts the whole call. -/
def filterArray (callback : JSValue → Except JSError Bool) :
    List JSValue → Except JSError (List JSValue)
  | [] => Except.ok []
  | x :: xs =>
    match callback x with
    | Except.error t => Except.error t
    | Except.ok b =>
      match filterArray callback xs with
      | Except.error t => Except.error t
      | Except.ok kept => Except.ok (if b then x :: kept else kept)

namespace Chatflows

inductive ViewMode where
  | grid : ViewMode
  | list : ViewMode
  deriving DecidableEq

/-- The five `useState` cells of the page. -/
structure State where
  workflows : JSValue
  viewMode : ViewMode
  searchText : String
  loading : Bool
  error : Option String

/-- The initial values given to `useState`. -/
def initial : State := ⟨JSValue.array [], ViewMode.grid, "", false, none⟩

/-- The text stored by `setError` in the `catch` block of `fetchWorkflows`. -/
def loadError : String := "加载工作流失败，请确保后端服务已启动"

/-- The part of `fetchWorkflows` before the `await`: `setLoading(true)`. -/
def fetchStart (s : State) : State :=
  { s with loading := true }

/-- The part of `fetchWorkflows` after the `await`, given what
`WorkflowService.getAllWorkflows()` settled with: the `try` continuation or the `catch`
block, then the `finally` block. -/
def fetchSettled (outcome : Except Thrown JSValue) (s : State) : State :=
  match outcome with
  | Except.ok data => { s with workflows := data, error := none, loading := false }
  | Except.error _ => { s with error := some loadError, loading := false }

/-- The expression `(workflow?.name || '').toLowerCase()`: a truthy name that is not a
string has no `toLowerCase` method. -/
def lowerName (toLowerCase : String → String) (workflow : JSValue) : Except JSError String :=
  match (workflow.optField "name").orElse (JSValue.string "") with
  | JSValue.string s => Except.ok (toLowerCase s)
  | _ => Except.error JSError.typeError

/-- The callback given to `workflows.filter`. -/
def matchesSearch (toLowerCase : String → String) (searchText : String) (workflow : JSValue) :
    Except JSError Bool :=
  match lowerName toLowerCase workflow with
  | Except.error t => Except.error t
  | Except.ok name => Except.ok (includes name (toLowerCase searchText))

/-- The memoised value `filteredWorkflows`; `workflows.filter` exists on arrays only. -/
def filteredWorkflows (toLowerCase : String → String) (workflows : JSValue)
    (searchText : String) : Except JSError (List JSValue) :=
  match workflows with
  | JSValue.array items => filterArray (matchesSearch toLowerCase searchText) items
  | _ => Except.error JSError.typeError

/-- The page together with the fetches in flight: `issued` counts the calls of
`fetchWorkflows` so far (a request is numbered by its position in issue order),
`pending` lists the requests not yet settled. -/
structure Controller where
  state : State
  issued : Nat
  pending : List Nat

def Controller.initial : Controller := ⟨Chatflows.initial, 0, []⟩

inductive Event where
  | issue (k : Nat) : Event
  | resolve (k : Nat) (payload : JSValue) : Event
  | reject (k : Nat) (t : Thrown) : Event
  | setSearchText (text : String) : Event
  | setViewMode (mode : ViewMode) : Event

/-- One step of the page: a fetch is issued with the next number; a pending request
settles; the search box or a view button is used. `none` when the event cannot occur. -/
def step (c : Controller) : Event → Option Controller
  | Event.issue k =>
    if k = c.issued then some ⟨fetchStart c.state, c.issued + 1, c.pending ++ [k]⟩ else none
  | Event.resolve k payload =>
    if k ∈ c.pending then
      some ⟨fetchSettled (Except.ok payload) c.state, c.issued, c.pending.erase k⟩
    else none
  | Event.reject k t =>
    if k ∈ c.pending then
      some ⟨fetchSettled (Except.error t) c.state, c.issued, c.pending.erase k⟩
    else none
  | Event.setSearchText text => some ⟨{ c.state with searchText := text }, c.issued, c.pending⟩
  | Event.setViewMode mode => some ⟨{ c.state with viewMode := mode }, c.issued, c.pending⟩

def run (c : Controller) : List Event → Option Controller
  | [] => some c
  | e :: es =>
    match step c e with
    | none => none
    | some c1 => run c1 es

/-- The payload of the last `resolve` event of a sequence, if there is one. -/
def lastResolved : List Event → Option JSValue
  | [] => none
  | e :: es =>
    match lastResolved es with
    | some p => some p
    | none =>
      match e with
      | Event.resolve _ payload => some payload
      | _ => none

/-- The function `fetchWorkflows` run from its call to its end with no other event in
between: `setLoading(true)`, the service call, then the continuation. -/
def fetchWorkflows (remote : Remote) (s : State) (w : World) : State × World :=
  match WorkflowService.getAllWorkflows remote w with
  | (outcome, w1) => (fetchSettled outcome (fetchStart s), w1)

/-- How the last settled list call of a sequence ended: `some true` when it rejected,
`some false` when it resolved with data, `none` when no call has settled. -/
def lastSettledRejected : List Event → Option Bool
  | [] => none
  | e :: es =>
    match lastSettledRejected es with
    | some b => some b
    | none =>
      match e with
      | Event.resolve _ _ => some false
      | Event.reject _ _ => some true
      | _ => none

/-- The state `Ready` of the list controller: nothing loading and no error. -/
def State.isReady (s : State) : Prop :=
  s.loading = false ∧ s.error = none

/-- The state `Failed` of the list controller: nothing loading and an error set. -/
def State.isFailed (s : State) : Prop :=
  s.loading = false ∧ s.error ≠ none

end Chatflows

/-! ## `components/Credentials.js` -/

namespace Credentials

/-- The two `useState` cells of the page. -/
structure State where
  credentials : JSValue
  loading : Bool

def initial : State := ⟨JSValue.array [], false⟩

/-- The part of `fetchCredentials` before the `await`: `setLoading(true)`. -/
def fetchStart (s : State) : State :=
  { s with loading := true }

/-- The part of `fetchCredentials` after the `await`: `setCredentials(data)` when the
service call fulfilled, then the `finally` block. -/
def fetchSettled (outcome : Except Thrown JSValue) (s : State) : State :=
  match outcome with
  | Except.ok data => { s with credentials := data, loading := false }
  | Except.error _ => { s with loading := false }

structure Controller where
  state : State
  issued : Nat
  pending : List Nat

def Controller.initial : Controller := ⟨Credentials.initial, 0, []⟩

inductive Event where
  | issue (k : Nat) : Event
  | resolve (k : Nat) (payload : JSValue) : Event
  | reject (k : Nat) (t : Thrown) : Event

def step (c : Controller) : Event → Option Controller
  | Event.issue k =>
    if k = c.issued then some ⟨fetchStart c.state, c.issued + 1, c.pending ++ [k]⟩ else none
  | Event.resolve k payload =>
    if k ∈ c.pending then
      some ⟨fetchSettled (Except.ok payload) c.state, c.issued, c.pending.erase k⟩
    else none
  | Event.reject k t =>
    if k ∈ c.pending then
      some ⟨fetchSettled (Except.error t) c.state, c.issued, c.pending.erase k⟩
    else none

def run (c : Controller) : List Event → Option Controller
  | [] => some c
  | e :: es =>
    match step c e with
    | none => none
    | some c1 => run c1 es

def lastResolved : List Event → Option JSValue
  | [] => none
  | e :: es =>
    match lastResolved es with
    | some p => some p
    | none =>
      match e with
      | Event.resolve _ payload => some payload
      | _ => none

end Credentials

/-! ## Specification-side definitions

These follow the wording of the specification and are compared with the code above. -/

/-- A value that is a string or is falsy (absent, `null`, ...): the shape of an optional text. -/
def JSValue.TextOrFalsy (v : JSValue) : Prop :=
  v.isString = true ∨ v.truthy = false

/-- The text of a value that is a non-empty string. -/
def JSValue.nonEmptyText : JSValue → Option String
  | JSValue.string s => if s = "" then none else some s
  | _ => none

/-- The message named by the priority rule of the data model: the caller-supplied context
when it is non-empty; otherwise the server-reported message (`response.data.error`, else
`response.data.message`) when non-empty; otherwise the status table entry when the status
is mapped; otherwise the generic fallback. -/
def priorityMessage (customMessage : Option String) (e : AxiosError) : String :=
  match (JSValue.ofOptString customMessage).nonEmptyText with
  | some context => context
  | none =>
    match (e.dataField "error").nonEmptyText with
    | some m => m
    | none =>
      match (e.dataField "message").nonEmptyText with
      | some m => m
      | none =>
        match e.status.bind HTTP_STATUS_MESSAGES with
        | some m => m
        | none => genericMessage

/-- The name of an item as a text: the empty text when the name is missing or is not a
string. -/
def JSValue.nameText (x : JSValue) : String :=
  match x.optField "name" with
  | JSValue.string s => s
  | _ => ""

/-- The status codes that the specification lists as mapped. -/
def mappedStatuses : List Int := [400, 401, 403, 404, 500, 502, 503]

/-! ## The service operations as one family -/

/-- A call of one of the operations of `WorkflowService` and `CredentialService`, with its
arguments. -/
inductive ServiceCall where
  | getAllWorkflows : ServiceCall
  | getWorkflow (id : String) : ServiceCall
  | createWorkflow (data : JSValue) : ServiceCall
  | updateWorkflow (id : String) (data : JSValue) : ServiceCall
  | deleteWorkflow (id : String) : ServiceCall
  | executeWorkflow (id : String) (inputs : JSValue) : ServiceCall
  | getAllCredentials : ServiceCall
  | getCredential (id : String) : ServiceCall
  | createCredential (data : JSValue) : ServiceCall
  | updateCredential (id : String) (data : JSValue) : ServiceCall
  | deleteCredential (id : String) : ServiceCall
  | getCredentialTypes : ServiceCall

namespace ServiceCall

/-- The call carried out by the function of the same name. -/
def run : ServiceCall → Remote → World → ServiceResult
  | getAllWorkflows, remote, w => WorkflowService.getAllWorkflows remote w
  | getWorkflow id, remote, w => WorkflowService.getWorkflow remote id w
  | createWorkflow data, remote, w => WorkflowService.createWorkflow remote data w
  | updateWorkflow id data, remote, w => WorkflowService.updateWorkflow remote id data w
  | deleteWorkflow id, remote, w => WorkflowService.deleteWorkflow remote id w
  | executeWorkflow id inputs, remote, w => WorkflowService.executeWorkflow remote id inputs w
  | getAllCredentials, remote, w => CredentialService.getAllCredentials remote w
  | getCredential id, remote, w => CredentialService.getCredential remote id w
  | createCredential data, remote, w => CredentialService.createCredential remote data w
  | updateCredential id data, remote, w => CredentialService.updateCredential remote id data w
  | deleteCredential id, remote, w => CredentialService.deleteCredential remote id w
  | getCredentialTypes, remote, w => CredentialService.getCredentialTypes remote w

/-- The request that the call sends. -/
def request : ServiceCall → Request
  | getAllWorkflows => ⟨Method.GET, "workflows/", none⟩
  | getWorkflow id => ⟨Method.GET, "workflows/" ++ id ++ "/", none⟩
  | createWorkflow data => ⟨Method.POST, "workflows/", some data⟩
  | updateWorkflow id data => ⟨Method.PUT, "workflows/" ++ id ++ "/", some data⟩
  | deleteWorkflow id => ⟨Method.DELETE, "workflows/" ++ id ++ "/", none⟩
  | executeWorkflow id inputs =>
    ⟨Method.POST, "workflows/" ++ id ++ "/execute/", some (JSValue.object [("inputs", inputs)])⟩
  | getAllCredentials => ⟨Method.GET, "credentials/", none⟩
  | getCredential id => ⟨Method.GET, "credentials/" ++ id ++ "/", none⟩
  | createCredential data => ⟨Method.POST, "credentials/", some data⟩
  | updateCredential id data => ⟨Method.PUT, "credentials/" ++ id ++ "/", some data⟩
  | deleteCredential id => ⟨Method.DELETE, "credentials/" ++ id ++ "/", none⟩
  | getCredentialTypes => ⟨Method.GET, "credentials/types/", none⟩

/-- The context text that the `catch` block of the operation gives to `handleApiError`. -/
def context : ServiceCall → String
  | getAllWorkflows => "获取工作流列表失败"
  | getWorkflow _ => "获取工作流详情失败"
  | createWorkflow _ => "创建工作流失败"
  | updateWorkflow _ _ => "更新工作流失败"
  | deleteWorkflow _ => "删除工作流失败"
  | executeWorkflow _ _ => "执行工作流失败"
  | getAllCredentials => "获取凭证列表失败"
  | getCredential _ => "获取凭证详情失败"
  | createCredential _ => "创建凭证失败"
  | updateCredential _ _ => "更新凭证失败"
  | deleteCredential _ => "删除凭证失败"
  | getCredentialTypes => "获取凭证类型失败"

/-- The write-style operations: create, update, delete and execute. -/
def isWrite : ServiceCall → Bool
  | createWorkflow _ => true
  | updateWorkflow _ _ => true
  | deleteWorkflow _ => true
  | executeWorkflow _ _ => true
  | createCredential _ => true
  | updateCredential _ _ => true
  | deleteCredential _ => true
  | _ => false

/-- The value that the `catch` block of the operation returns, `none` when the block
ends in `throw error`. -/
def fallback : ServiceCall → Option JSValue
  | getAllWorkflows => some (JSValue.array [])
  | getWorkflow _ => some JSValue.null
  | getAllCredentials => some (JSValue.array [])
  | getCredential _ => some JSValue.null
  | getCredentialTypes => some (JSValue.array [])
  | _ => none

end ServiceCall

/-- The number of calls of `handleApiError` recorded on the console: each call starts with
`console.error('API错误:', error)`, and no other console call uses that label. -/
def handleApiErrorCalls (w : World) : Nat :=
  (w.console.filter fun entry =>
    decide (entry.level = ConsoleLevel.error) && decide (entry.label = "API错误:")).length

/-- A remote that answers every request with the same failure. -/
def failingRemote (e : AxiosError) : Remote :=
  fun _ => Except.error (Failure.error e)

/-- A remote that answers every request with the same response. -/
def answeringRemote (r : AxiosResponse) : Remote :=
  fun _ => Except.ok r

/-! ## The component operations as one family -/

/-- A call of one of the four operations of `ComponentService`, with its argument. -/
inductive ComponentCall where
  | getAllComponents : ComponentCall
  | getComponentsByType (type : String) : ComponentCall
  | getComponentTypes : ComponentCall
  | getComponentCategories : ComponentCall

namespace ComponentCall

/-- The call carried out by the function of the same name. -/
def run : ComponentCall → Remote → World → ServiceResult
  | getAllComponents, remote, w => ComponentService.getAllComponents remote w
  | getComponentsByType type, remote, w => ComponentService.getComponentsByType remote type w
  | getComponentTypes, remote, w => ComponentService.getComponentTypes remote w
  | getComponentCategories, remote, w => ComponentService.getComponentCategories remote w

/-- The request that the call sends. -/
def request : ComponentCall → Request
  | getAllComponents => ⟨Method.GET, "components/", none⟩
  | getComponentsByType type => ⟨Method.GET, "components/?type=" ++ type, none⟩
  | getComponentTypes => ⟨Method.GET, "components/types/", none⟩
  | getComponentCategories => ⟨Method.GET, "components/categories/", none⟩

end ComponentCall

/-! ## Example failures -/

/-- A rejection with status 404 and body `{message: "not found"}`. -/
def notFoundFailure : AxiosError :=
  ⟨some ⟨some 404, JSValue.object [("message", JSValue.string "not found")]⟩⟩

/-- A rejection with status 503 and no body. -/
def unavailableFailure : AxiosError :=
  ⟨some ⟨some 503, JSValue.undefined⟩⟩

/-- A network failure: no response at all. -/
def networkFailure : AxiosError := ⟨none⟩

/-- A rejection with status 500 and body `{error: 42}`. -/
def numericErrorFailure : AxiosError :=
  ⟨some ⟨some 500, JSValue.object [("error", JSValue.number 42)]⟩⟩

/-- A rejection with status 400 and body `{error: true, message: "real reason"}`. -/
def flagErrorFailure : AxiosError :=
  ⟨some ⟨some 400, JSValue.object
    [("error", JSValue.bool true), ("message", JSValue.string "real reason")]⟩⟩

/-! ## Example payloads and the ASCII lower-casing -/

/-- Lower-casing of the letters `A` to `Z`, the restriction of `toLowerCase` to ASCII texts. -/
def asciiLower (s : String) : String :=
  ⟨s.data.map Char.toLower⟩

/-- The payload `[{id: 1, name: "Foo"}]`. -/
def payloadFoo : JSValue :=
  JSValue.array [JSValue.object [("id", JSValue.number 1), ("name", JSValue.string "Foo")]]

/-- The payload `[{id: 2, name: "Bar"}]`. -/
def payloadBar : JSValue :=
  JSValue.array [JSValue.object [("id", JSValue.number 2), ("name", JSValue.string "Bar")]]

/-! # Theorems -/

/-! ## Lemmas on values and on the status table -/

theorem JSValue.orElse_of_truthy {a b : JSValue} (h : a.truthy = true) : a.orElse b = a := by
  simp [JSValue.orElse, h]

theorem JSValue.orElse_of_falsy {a b : JSValue} (h : a.truthy = false) : a.orElse b = b := by
  simp [JSValue.orElse, h]

theorem JSValue.nonEmptyText_of_truthy {v : JSValue} (hv : v.TextOrFalsy)
    (h : v.truthy = true) : ∃ s, v = JSValue.string s ∧ s ≠ "" ∧ v.nonEmptyText = some s := by
  cases v <;> simp_all [JSValue.TextOrFalsy, JSValue.isString, JSValue.truthy,
    JSValue.nonEmptyText]

theorem JSValue.nonEmptyText_of_falsy {v : JSValue} (h : v.truthy = false) :
    v.nonEmptyText = none := by
  cases v <;> simp_all [JSValue.truthy, JSValue.nonEmptyText]

theorem JSValue.textOrFalsy_ofOptString (c : Option String) :
    (JSValue.ofOptString c).TextOrFalsy := by
  cases c <;> simp [JSValue.ofOptString, JSValue.TextOrFalsy, JSValue.isString, JSValue.truthy]

theorem HTTP_STATUS_MESSAGES_ne_empty {n : Int} {m : String}
    (h : HTTP_STATUS_MESSAGES n = some m) : m ≠ "" := by
  unfold HTTP_STATUS_MESSAGES at h
  split_ifs at h <;> simp at h <;> subst h <;> decide

theorem HTTP_STATUS_MESSAGES_isSome_iff (n : Int) :
    (HTTP_STATUS_MESSAGES n).isSome = true ↔ n ∈ mappedStatuses := by
  unfold HTTP_STATUS_MESSAGES mappedStatuses
  split_ifs <;> simp_all

theorem genericMessage_ne_empty : genericMessage ≠ "" := by decide

theorem statusMessage_eq (status : Option Int) :
    statusMessage status =
      match status.bind HTTP_STATUS_MESSAGES with
      | some m => JSValue.string m
      | none => JSValue.undefined := by
  cases status with
  | none => rfl
  | some n =>
    simp only [statusMessage, Option.bind]
    cases HTTP_STATUS_MESSAGES n <;> rfl

/-- On an error object `handleApiError` returns, and what it returns and writes is
given by the four-operand message chain. -/
theorem handleApiError_error (e : AxiosError) (customMessage : Option String) (w : World) :
    handleApiError (Failure.error e) customMessage w =
      (Except.ok ⟨true, e.status,
          (((JSValue.ofOptString customMessage).orElse e.serverMessage).orElse
            (statusMessage e.status)).orElse (JSValue.string genericMessage),
          Failure.error e⟩,
        (w.consoleError "API错误:" (ConsoleArg.failure (Failure.error e))).messageError
          ((((JSValue.ofOptString customMessage).orElse e.serverMessage).orElse
            (statusMessage e.status)).orElse (JSValue.string genericMessage))) := rfl

/-- The message chain on texts: with optional-text operands it selects the message of
the priority rule. -/
theorem messageChain_eq_priority (e : AxiosError) (customMessage : Option String)
    (hError : (e.dataField "error").TextOrFalsy)
    (hMessage : (e.dataField "message").TextOrFalsy) :
    (((JSValue.ofOptString customMessage).orElse e.serverMessage).orElse
        (statusMessage e.status)).orElse (JSValue.string genericMessage) =
      JSValue.string (priorityMessage customMessage e) := by
  unfold priorityMessage AxiosError.serverMessage
  cases hc : (JSValue.ofOptString customMessage).truthy with
  | true =>
    obtain ⟨s, hs, _, hn⟩ :=
      JSValue.nonEmptyText_of_truthy (JSValue.textOrFalsy_ofOptString customMessage) hc
    rw [hn, JSValue.orElse_of_truthy hc, JSValue.orElse_of_truthy hc,
      JSValue.orElse_of_truthy hc, hs]
  | false =>
    rw [JSValue.nonEmptyText_of_falsy hc, JSValue.orElse_of_falsy hc]
    cases he : (e.dataField "error").truthy with
    | true =>
      obtain ⟨s, hs, _, hn⟩ := JSValue.nonEmptyText_of_truthy hError he
      rw [hn, JSValue.orElse_of_truthy he, JSValue.orElse_of_truthy he,
        JSValue.orElse_of_truthy he, hs]
    | false =>
      rw [JSValue.nonEmptyText_of_falsy he, JSValue.orElse_of_falsy he]
      cases hm : (e.dataField "message").truthy with
      | true =>
        obtain ⟨s, hs, _, hn⟩ := JSValue.nonEmptyText_of_truthy hMessage hm
        rw [hn, JSValue.orElse_of_truthy hm, JSValue.orElse_of_truthy hm, hs]
      | false =>
        rw [JSValue.nonEmptyText_of_falsy hm, JSValue.orElse_of_falsy hm, statusMessage_eq]
        cases hs : e.status.bind HTTP_STATUS_MESSAGES with
        | none => simp [JSValue.orElse, JSValue.truthy]
        | some m =>
          obtain ⟨n, _, hn⟩ := Option.bind_eq_some.mp hs
          simp [JSValue.orElse, JSValue.truthy, HTTP_STATUS_MESSAGES_ne_empty hn]

theorem priorityMessage_ne_empty (customMessage : Option String) (e : AxiosError) :
    priorityMessage customMessage e ≠ "" := by
  unfold priorityMessage
  have key : ∀ (v : JSValue) (s : String), v.nonEmptyText = some s → s ≠ "" := by
    intro v s h
    cases v <;> simp [JSValue.nonEmptyText] at h
    obtain ⟨h1, h2⟩ := h
    subst h2
    exact h1
  cases h1 : (JSValue.ofOptString customMessage).nonEmptyText with
  | some c => exact key _ _ h1
  | none =>
    cases h2 : (e.dataField "error").nonEmptyText with
    | some m => exact key _ _ h2
    | none =>
      cases h3 : (e.dataField "message").nonEmptyText with
      | some m => exact key _ _ h3
      | none =>
        cases h4 : e.status.bind HTTP_STATUS_MESSAGES with
        | none => exact genericMessage_ne_empty
        | some m =>
          obtain ⟨n, _, hn⟩ := Option.bind_eq_some.mp h4
          exact HTTP_STATUS_MESSAGES_ne_empty hn

/-! ## The error normaliser -/

/-- Whatever the body of the response holds, the message returned for an error object is
truthy: it is the first truthy operand of the chain, whose last operand is a non-empty
text. A truthy body field that is not a string is returned as it is. -/
theorem handleApiError_message_truthy (e : AxiosError) (customMessage : Option String)
    (w : World) :
    ∃ n w1, handleApiError (Failure.error e) customMessage w = (Except.ok n, w1) ∧
      n.message.truthy = true := by
  refine ⟨_, _, handleApiError_error e customMessage w, ?_⟩
  show JSValue.truthy (JSValue.orElse _ _) = true
  generalize ((JSValue.ofOptString customMessage).orElse e.serverMessage).orElse
    (statusMessage e.status) = chain
  cases h : chain.truthy with
  | true => rw [JSValue.orElse_of_truthy h]; exact h
  | false => rw [JSValue.orElse_of_falsy h]; decide

/-- C1 as stated fails: for the body `{error: 42}` the returned message is the number 42,
not a string, and for the body `{error: true, message: "real reason"}` it is `true`, while
the priority rule on texts names `"real reason"`. -/
theorem handleApiError_message_string_counterexample :
    (∃ n w1, handleApiError (Failure.error numericErrorFailure) none World.empty =
        (Except.ok n, w1) ∧
      n.message = JSValue.number 42 ∧ n.message.isNonEmptyString = false) ∧
    (∃ n w1, handleApiError (Failure.error flagErrorFailure) none World.empty =
        (Except.ok n, w1) ∧
      n.message = JSValue.bool true ∧ n.message.isNonEmptyString = false ∧
      priorityMessage none flagErrorFailure = "real reason" ∧
      n.message ≠ JSValue.string (priorityMessage none flagErrorFailure)) := by
  refine ⟨⟨_, _, handleApiError_error _ _ _, rfl, rfl⟩,
    ⟨_, _, handleApiError_error _ _ _, rfl, rfl, by decide, ?_⟩⟩
  show JSValue.bool true ≠ _
  simp

/-- C1, amended: for every failure object, with or without a response, and every optional
context, the message returned by `handleApiError` is the first truthy value in the fixed
order: the context when it is non-empty; otherwise `response.data.error` when truthy;
otherwise `response.data.message` when truthy; otherwise the status table entry when the
status is mapped; otherwise the generic fallback. The message is always truthy. When the
body fields `error` and `message` are each a string or falsy (absent, `null`, ...), it is
the message of the priority rule and a non-empty string; a truthy body field that is not a
string is returned as it is. -/
theorem handleApiError_message_priority (e : AxiosError) (customMessage : Option String)
    (w : World) :
    ∃ n w1, handleApiError (Failure.error e) customMessage w = (Except.ok n, w1) ∧
      (∀ c, customMessage = some c → c ≠ "" → n.message = JSValue.string c) ∧
      ((customMessage = none ∨ customMessage = some "") →
        ((e.dataField "error").truthy = true → n.message = e.dataField "error") ∧
        ((e.dataField "error").truthy = false → (e.dataField "message").truthy = true →
          n.message = e.dataField "message") ∧
        ((e.dataField "error").truthy = false → (e.dataField "message").truthy = false →
          (∀ m, e.status.bind HTTP_STATUS_MESSAGES = some m → n.message = JSValue.string m) ∧
          (e.status.bind HTTP_STATUS_MESSAGES = none →
            n.message = JSValue.string genericMessage))) ∧
      n.message.truthy = true ∧
      ((e.dataField "error").TextOrFalsy → (e.dataField "message").TextOrFalsy →
        n.message = JSValue.string (priorityMessage customMessage e) ∧
        n.message.isNonEmptyString = true) := by
  refine ⟨_, _, handleApiError_error e customMessage w, ?_, ?_, ?_, ?_⟩
  · intro c hc hne
    subst hc
    have ht : (JSValue.ofOptString (some c)).truthy = true := by
      simp [JSValue.ofOptString, JSValue.truthy, hne]
    show JSValue.orElse _ _ = _
    rw [JSValue.orElse_of_truthy ht, JSValue.orElse_of_truthy ht, JSValue.orElse_of_truthy ht]
    rfl
  · intro hc
    have hf : (JSValue.ofOptString customMessage).truthy = false := by
      rcases hc with hc | hc <;> subst hc <;> rfl
    refine ⟨?_, ?_, ?_⟩
    · intro he
      show JSValue.orElse _ _ = _
      rw [JSValue.orElse_of_falsy hf]
      unfold AxiosError.serverMessage
      rw [JSValue.orElse_of_truthy he, JSValue.orElse_of_truthy he,
        JSValue.orElse_of_truthy he]
    · intro he hm
      show JSValue.orElse _ _ = _
      rw [JSValue.orElse_of_falsy hf]
      unfold AxiosError.serverMessage
      rw [JSValue.orElse_of_falsy he, JSValue.orElse_of_truthy hm,
        JSValue.orElse_of_truthy hm]
    · intro he hm
      have hchain : (((JSValue.ofOptString customMessage).orElse e.serverMessage).orElse
          (statusMessage e.status)).orElse (JSValue.string genericMessage) =
          (statusMessage e.status).orElse (JSValue.string genericMessage) := by
        rw [JSValue.orElse_of_falsy hf]
        unfold AxiosError.serverMessage
        rw [JSValue.orElse_of_falsy he, JSValue.orElse_of_falsy hm]
      constructor
      · intro m hsm
        show JSValue.orElse _ _ = _
        obtain ⟨k, _, hk⟩ := Option.bind_eq_some.mp hsm
        rw [hchain, statusMessage_eq, hsm]
        simp [JSValue.orElse, JSValue.truthy, HTTP_STATUS_MESSAGES_ne_empty hk]
      · intro hsm
        show JSValue.orElse _ _ = _
        rw [hchain, statusMessage_eq, hsm]
        rfl
  · show JSValue.truthy (JSValue.orElse _ _) = true
    generalize ((JSValue.ofOptString customMessage).orElse e.serverMessage).orElse
      (statusMessage e.status) = chain
    cases h : chain.truthy with
    | true => rw [JSValue.orElse_of_truthy h]; exact h
    | false => rw [JSValue.orElse_of_falsy h]; decide
  · intro hError hMessage
    constructor
    · exact messageChain_eq_priority e customMessage hError hMessage
    · show JSValue.isNonEmptyString _ = true
      rw [messageChain_eq_priority e customMessage hError hMessage]
      simpa [JSValue.isNonEmptyString] using priorityMessage_ne_empty customMessage e

/-- Example for C1, amended: status 404 with body `{message: "not found"}` and no context
gives the server-reported message, a non-empty string. -/
theorem handleApiError_message_priority_witness :
    ∃ n w1, handleApiError (Failure.error notFoundFailure) none World.empty =
        (Except.ok n, w1) ∧
      n.message = JSValue.string "not found" ∧ n.message.isNonEmptyString = true := by
  obtain ⟨n, w1, h, _, _, _, htext⟩ :=
    handleApiError_message_priority notFoundFailure none World.empty
  obtain ⟨h1, h2⟩ := htext (Or.inr rfl) (Or.inl rfl)
  refine ⟨n, w1, h, ?_, h2⟩
  rw [h1]
  have hp : priorityMessage none notFoundFailure = "not found" := by decide
  rw [hp]

/-- C2: for every failure object with no context and no server-reported message,
`handleApiError` returns exactly the table entry when the status is one of
400, 401, 403, 404, 500, 502, 503, and the generic fallback message when the status is any
other value or is missing. -/
theorem handleApiError_status_table (e : AxiosError) (customMessage : Option String)
    (w : World) (hContext : (JSValue.ofOptString customMessage).truthy = false)
    (hServer : e.serverMessage.truthy = false) :
    ∃ n w1, handleApiError (Failure.error e) customMessage w = (Except.ok n, w1) ∧
      (∀ s ∈ mappedStatuses, e.status = some s →
        ∃ m, HTTP_STATUS_MESSAGES s = some m ∧ n.message = JSValue.string m) ∧
      ((∀ s ∈ mappedStatuses, e.status ≠ some s) →
        n.message = JSValue.string genericMessage) := by
  refine ⟨_, _, handleApiError_error e customMessage w, ?_, ?_⟩
  · intro s hs hst
    obtain ⟨m, hm⟩ := Option.isSome_iff_exists.mp ((HTTP_STATUS_MESSAGES_isSome_iff s).mpr hs)
    refine ⟨m, hm, ?_⟩
    show JSValue.orElse _ _ = _
    rw [JSValue.orElse_of_falsy hContext, JSValue.orElse_of_falsy hServer, hst]
    simp [statusMessage, hm, JSValue.orElse, JSValue.truthy, HTTP_STATUS_MESSAGES_ne_empty hm]
  · intro hun
    show JSValue.orElse _ _ = _
    rw [JSValue.orElse_of_falsy hContext, JSValue.orElse_of_falsy hServer]
    cases hst : e.status with
    | none => simp [statusMessage, JSValue.orElse, JSValue.truthy]
    | some s =>
      have hnot : s ∉ mappedStatuses := fun hmem => hun s hmem hst
      have hnone : HTTP_STATUS_MESSAGES s = none := by
        cases h : HTTP_STATUS_MESSAGES s with
        | none => rfl
        | some m =>
          exact absurd ((HTTP_STATUS_MESSAGES_isSome_iff s).mp (by simp [h])) hnot
      simp [statusMessage, hnone, JSValue.orElse, JSValue.truthy]

/-- Witness for C2: status 503 without a body and without a context. -/
theorem handleApiError_status_table_witness :
    HTTP_STATUS_MESSAGES 503 = some "服务暂时不可用，请稍后再试" ∧
    ∃ n w1, handleApiError (Failure.error unavailableFailure) none World.empty =
        (Except.ok n, w1) ∧
      (∀ s ∈ mappedStatuses, unavailableFailure.status = some s →
        ∃ m, HTTP_STATUS_MESSAGES s = some m ∧ n.message = JSValue.string m) ∧
      ((∀ s ∈ mappedStatuses, unavailableFailure.status ≠ some s) →
        n.message = JSValue.string genericMessage) :=
  ⟨by decide, handleApiError_status_table unavailableFailure none World.empty rfl rfl⟩

/-! ## Lemmas on the transport and on the `catch` blocks -/

theorem httpClient.request_error {remote : Remote} {config : Request} {f : Failure}
    (h : remote config = Except.error f) (w : World) :
    httpClient.request remote config w =
      (Except.error f, w.consoleError "请求错误:" (ConsoleArg.failure f)) := by
  simp [httpClient.request, httpClient.requestInterceptor, httpClient.responseInterceptor, h]

theorem httpClient.request_ok {remote : Remote} {config : Request} {r : AxiosResponse}
    (h : remote config = Except.ok r) (w : World) :
    httpClient.request remote config w = (Except.ok r, w) := by
  simp [httpClient.request, httpClient.requestInterceptor, httpClient.responseInterceptor, h]

theorem swallowAfter_handleApiError (e : AxiosError) (c : Option String) (w : World)
    (fallback : JSValue) :
    swallowAfter (handleApiError (Failure.error e) c w) fallback =
      (Except.ok fallback, (handleApiError (Failure.error e) c w).2) := by
  rw [handleApiError_error]; rfl

theorem rethrowAfter_handleApiError (e : AxiosError) (c : Option String) (w : World) :
    rethrowAfter (handleApiError (Failure.error e) c w) (Failure.error e) =
      (Except.error (Thrown.failure (Failure.error e)),
        (handleApiError (Failure.error e) c w).2) := by
  rw [handleApiError_error]; rfl

theorem responseOrError_error (e : AxiosError) :
    ∃ arg, responseOrError (Failure.error e) = some arg := by
  rcases e with ⟨_ | r⟩ <;> simp [responseOrError]

/-- A failed call, for each operation: the response interceptor writes to the console,
the `catch` block calls `handleApiError` once with the context of the operation, and the
call settles with the fallback value (reads) or with the failure itself (writes). -/
theorem ServiceCall.run_error (c : ServiceCall) (remote : Remote) (w : World) (e : AxiosError)
    (h : remote c.request = Except.error (Failure.error e)) :
    ∃ w0 : World, w0.notifications = w.notifications ∧
      handleApiErrorCalls w0 = handleApiErrorCalls w ∧
      c.run remote w =
        ((match c.fallback with
          | some v => Except.ok v
          | none => Except.error (Thrown.failure (Failure.error e))),
          (handleApiError (Failure.error e) (some c.context) w0).2) := by
  cases c <;>
    simp only [ServiceCall.request] at h <;>
    simp only [ServiceCall.run, ServiceCall.context, ServiceCall.fallback,
      WorkflowService.getAllWorkflows,
      WorkflowService.getWorkflow, WorkflowService.createWorkflow,
      WorkflowService.updateWorkflow, WorkflowService.deleteWorkflow,
      WorkflowService.executeWorkflow, CredentialService.getAllCredentials,
      CredentialService.getCredential, CredentialService.createCredential,
      CredentialService.updateCredential, CredentialService.deleteCredential,
      CredentialService.getCredentialTypes, httpClient.get, httpClient.post, httpClient.put,
      httpClient.delete, httpClient.request_error h, swallowAfter_handleApiError,
      rethrowAfter_handleApiError]
  case getAllWorkflows =>
    obtain ⟨arg, harg⟩ := responseOrError_error e
    simp only [harg, swallowAfter_handleApiError]
    exact ⟨((w.consoleLog "正在请求工作流列表..." ConsoleArg.absent).consoleError "请求错误:"
        (ConsoleArg.failure (Failure.error e))).consoleError "获取工作流列表错误详情:" arg,
      rfl, by simp [handleApiErrorCalls, World.consoleError, World.consoleLog], rfl⟩
  all_goals
    exact ⟨w.consoleError "请求错误:" (ConsoleArg.failure (Failure.error e)),
      rfl, by simp [handleApiErrorCalls, World.consoleError], rfl⟩

/-- A successful call, for each operation: the body of the response is returned, no
toast is shown and `handleApiError` is not called. -/
theorem ServiceCall.run_ok (c : ServiceCall) (remote : Remote) (w : World) (r : AxiosResponse)
    (h : remote c.request = Except.ok r) :
    (c.run remote w).1 = Except.ok r.data ∧
      (c.run remote w).2.notifications = w.notifications ∧
      handleApiErrorCalls (c.run remote w).2 = handleApiErrorCalls w := by
  cases c <;>
    simp only [ServiceCall.request] at h <;>
    simp [ServiceCall.run, WorkflowService.getAllWorkflows,
      WorkflowService.getWorkflow, WorkflowService.createWorkflow,
      WorkflowService.updateWorkflow, WorkflowService.deleteWorkflow,
      WorkflowService.executeWorkflow, CredentialService.getAllCredentials,
      CredentialService.getCredential, CredentialService.createCredential,
      CredentialService.updateCredential, CredentialService.deleteCredential,
      CredentialService.getCredentialTypes, httpClient.get, httpClient.post, httpClient.put,
      httpClient.delete, httpClient.request_ok h, handleApiErrorCalls, World.consoleLog]

theorem handleApiErrorCalls_handleApiError (e : AxiosError) (c : Option String) (w : World) :
    handleApiErrorCalls (handleApiError (Failure.error e) c w).2 = handleApiErrorCalls w + 1 := by
  rw [handleApiError_error]
  simp [handleApiErrorCalls, World.consoleError, World.messageError]

/-! ## The resource services -/

/-- C3: for every transport failure (with or without a response) answering the list
request, `WorkflowService.getAllWorkflows` and `CredentialService.getAllCredentials`
complete normally and their result is the empty sequence. -/
theorem list_calls_never_propagate (remote : Remote) (w : World) (e : AxiosError) :
    (remote ⟨Method.GET, "workflows/", none⟩ = Except.error (Failure.error e) →
      (WorkflowService.getAllWorkflows remote w).1 = Except.ok (JSValue.array [])) ∧
    (remote ⟨Method.GET, "credentials/", none⟩ = Except.error (Failure.error e) →
      (CredentialService.getAllCredentials remote w).1 = Except.ok (JSValue.array [])) := by
  constructor
  · intro h
    obtain ⟨w0, _, _, hrun⟩ := ServiceCall.run_error ServiceCall.getAllWorkflows remote w e h
    exact congrArg Prod.fst hrun
  · intro h
    obtain ⟨w0, _, _, hrun⟩ := ServiceCall.run_error ServiceCall.getAllCredentials remote w e h
    exact congrArg Prod.fst hrun

/-- Witness for C3: a network failure and a 503 rejection. -/
theorem list_calls_never_propagate_witness :
    (WorkflowService.getAllWorkflows (failingRemote networkFailure) World.empty).1 =
        Except.ok (JSValue.array []) ∧
      (CredentialService.getAllCredentials (failingRemote unavailableFailure) World.empty).1 =
        Except.ok (JSValue.array []) :=
  ⟨(list_calls_never_propagate (failingRemote networkFailure) World.empty networkFailure).1 rfl,
    (list_calls_never_propagate (failingRemote unavailableFailure) World.empty
      unavailableFailure).2 rfl⟩

/-- C4: for every transport failure `e` answering its request, each write-style operation
(`createWorkflow`, `updateWorkflow`, `deleteWorkflow`, `executeWorkflow`, `createCredential`,
`updateCredential`, `deleteCredential`) calls `handleApiError` on `e` exactly once, right
after the response interceptor and with its context text, and then rejects with the
failure `e` itself. -/
theorem write_calls_rethrow_raw_failure (c : ServiceCall) (remote : Remote) (w : World)
    (e : AxiosError) (hw : c.isWrite = true)
    (h : remote c.request = Except.error (Failure.error e)) :
    ∃ n w1,
      handleApiError (Failure.error e) (some c.context)
          (w.consoleError "请求错误:" (ConsoleArg.failure (Failure.error e))) =
        (Except.ok n, w1) ∧
      n.originalError = Failure.error e ∧
      c.run remote w = (Except.error (Thrown.failure (Failure.error e)), w1) ∧
      handleApiErrorCalls w1 = handleApiErrorCalls w + 1 ∧
      w1.notifications = w.notifications ++ [n.message] := by
  refine ⟨_, _, handleApiError_error e (some c.context) _, rfl, ?_, ?_, rfl⟩
  · cases c <;> simp only [ServiceCall.isWrite, reduceCtorEq] at hw <;>
      simp only [ServiceCall.request] at h <;>
      simp only [ServiceCall.run, ServiceCall.context, WorkflowService.createWorkflow,
        WorkflowService.updateWorkflow, WorkflowService.deleteWorkflow,
        WorkflowService.executeWorkflow, CredentialService.createCredential,
        CredentialService.updateCredential, CredentialService.deleteCredential,
        httpClient.post, httpClient.put, httpClient.delete, httpClient.request_error h,
        rethrowAfter_handleApiError] <;>
      rfl
  · simp [handleApiErrorCalls, World.consoleError, World.messageError]

/-- Witness for C4: deleting workflow 7 while the network is down. -/
theorem write_calls_rethrow_raw_failure_witness :
    ∃ n w1,
      handleApiError (Failure.error networkFailure) (some "删除工作流失败")
          (World.empty.consoleError "请求错误:"
            (ConsoleArg.failure (Failure.error networkFailure))) = (Except.ok n, w1) ∧
      n.originalError = Failure.error networkFailure ∧
      WorkflowService.deleteWorkflow (failingRemote networkFailure) "7" World.empty =
        (Except.error (Thrown.failure (Failure.error networkFailure)), w1) ∧
      handleApiErrorCalls w1 = handleApiErrorCalls World.empty + 1 ∧
      w1.notifications = World.empty.notifications ++ [n.message] :=
  write_calls_rethrow_raw_failure (ServiceCall.deleteWorkflow "7")
    (failingRemote networkFailure) World.empty networkFailure rfl rfl

/-- C8 as stated fails: when `getWorkflow("42")` is answered by status 404 with body
`{message: "not found"}`, the call returns `null`, but the normalised error produced for it
does not have the message `"not found"`. -/
theorem getWorkflow_notFound_message_counterexample :
    ∃ n w1,
      handleApiError (Failure.error notFoundFailure) (some "获取工作流详情失败")
          (World.empty.consoleError "请求错误:"
            (ConsoleArg.failure (Failure.error notFoundFailure))) = (Except.ok n, w1) ∧
      WorkflowService.getWorkflow (failingRemote notFoundFailure) "42" World.empty =
        (Except.ok JSValue.null, w1) ∧
      n.message ≠ JSValue.string "not found" ∧
      w1.notifications ≠ [JSValue.string "not found"] := by
  refine ⟨_, _, handleApiError_error _ _ _, rfl, ?_, ?_⟩
  · simp [JSValue.orElse, JSValue.ofOptString, JSValue.truthy]
  · simp [World.messageError, World.consoleError, World.empty, JSValue.orElse,
      JSValue.ofOptString, JSValue.truthy]

/-- C8, amended: when a get-by-id call is answered by status 404 with body
`{message: "not found"}`, the call returns `null` and the normalised error produced for
it has status 404 and the context text of the operation as its message, because the
context comes before the server-reported message; without a context the same failure
is normalised to `"not found"`, the server-reported message coming before the status
table. -/
theorem get_notFound_normalized (remote : Remote) (id : String) (w : World)
    (hW : remote ⟨Method.GET, "workflows/" ++ id ++ "/", none⟩ =
      Except.error (Failure.error notFoundFailure))
    (hC : remote ⟨Method.GET, "credentials/" ++ id ++ "/", none⟩ =
      Except.error (Failure.error notFoundFailure)) :
    (∃ n w1,
      handleApiError (Failure.error notFoundFailure) (some "获取工作流详情失败")
          (w.consoleError "请求错误:" (ConsoleArg.failure (Failure.error notFoundFailure))) =
        (Except.ok n, w1) ∧
      WorkflowService.getWorkflow remote id w = (Except.ok JSValue.null, w1) ∧
      n.message = JSValue.string "获取工作流详情失败" ∧ n.status = some 404) ∧
    (∃ n w1,
      handleApiError (Failure.error notFoundFailure) (some "获取凭证详情失败")
          (w.consoleError "请求错误:" (ConsoleArg.failure (Failure.error notFoundFailure))) =
        (Except.ok n, w1) ∧
      CredentialService.getCredential remote id w = (Except.ok JSValue.null, w1) ∧
      n.message = JSValue.string "获取凭证详情失败" ∧ n.status = some 404) ∧
    (∃ n w1,
      handleApiError (Failure.error notFoundFailure) none w = (Except.ok n, w1) ∧
      n.message = JSValue.string "not found" ∧
      statusMessage n.status = JSValue.string "请求的资源不存在") := by
  refine ⟨⟨_, _, handleApiError_error _ _ _, ?_, ?_, rfl⟩,
    ⟨_, _, handleApiError_error _ _ _, ?_, ?_, rfl⟩,
    ⟨_, _, handleApiError_error _ _ _, ?_, ?_⟩⟩
  · simp only [WorkflowService.getWorkflow, httpClient.get, httpClient.request_error hW,
      swallowAfter_handleApiError]
    rfl
  · simp [JSValue.orElse, JSValue.ofOptString, JSValue.truthy]
  · simp only [CredentialService.getCredential, httpClient.get, httpClient.request_error hC,
      swallowAfter_handleApiError]
    rfl
  · simp [JSValue.orElse, JSValue.ofOptString, JSValue.truthy]
  · simp [JSValue.orElse, JSValue.ofOptString, JSValue.truthy, AxiosError.serverMessage,
      AxiosError.dataField, notFoundFailure, JSValue.optField, JSValue.lookupField]
  · rfl

/-- Witness for C8, amended: `get(42)` on both services against a remote that answers
404 with body `{message: "not found"}`. -/
theorem get_notFound_normalized_witness :
    (∃ n w1,
      handleApiError (Failure.error notFoundFailure) (some "获取工作流详情失败")
          (World.empty.consoleError "请求错误:"
            (ConsoleArg.failure (Failure.error notFoundFailure))) = (Except.ok n, w1) ∧
      WorkflowService.getWorkflow (failingRemote notFoundFailure) "42" World.empty =
        (Except.ok JSValue.null, w1) ∧
      n.message = JSValue.string "获取工作流详情失败" ∧ n.status = some 404) ∧
    (∃ n w1,
      handleApiError (Failure.error notFoundFailure) (some "获取凭证详情失败")
          (World.empty.consoleError "请求错误:"
            (ConsoleArg.failure (Failure.error notFoundFailure))) = (Except.ok n, w1) ∧
      CredentialService.getCredential (failingRemote notFoundFailure) "42" World.empty =
        (Except.ok JSValue.null, w1) ∧
      n.message = JSValue.string "获取凭证详情失败" ∧ n.status = some 404) ∧
    (∃ n w1,
      handleApiError (Failure.error notFoundFailure) none World.empty = (Except.ok n, w1) ∧
      n.message = JSValue.string "not found" ∧
      statusMessage n.status = JSValue.string "请求的资源不存在") :=
  get_notFound_normalized (failingRemote notFoundFailure) "42" World.empty rfl rfl

/-- C9 as stated fails: given `null` or `undefined` as the failure, `handleApiError`
raises a `TypeError` and returns no object. -/
theorem handleApiError_null_counterexample :
    (handleApiError Failure.null none World.empty).1 = Except.error JSError.typeError ∧
    (handleApiError Failure.undefined none World.empty).1 = Except.error JSError.typeError ∧
    (handleApiError Failure.null none World.empty).2.notifications = [] :=
  ⟨rfl, rfl, rfl⟩

/-- C9, amended: for every failure that is an error object (with a response, without a
response, with a response that has no body) and every context, `handleApiError` returns an
object with `isError = true`, `status` equal to the status of the response when there is
one and absent otherwise, and `originalError` equal to the given failure, after one console
call and one notification carrying the message. For `null` and for `undefined`, whatever
the context, it raises a `TypeError` right after the console call: no notification is
emitted. -/
theorem handleApiError_total_on_error_objects (e : AxiosError) (customMessage : Option String)
    (w : World) :
    (∃ n, handleApiError (Failure.error e) customMessage w =
        (Except.ok n,
          (w.consoleError "API错误:" (ConsoleArg.failure (Failure.error e))).messageError
            n.message) ∧
      n.isError = true ∧
      (∀ r, e.response = some r → n.status = r.status) ∧
      (e.response = none → n.status = none) ∧
      n.originalError = Failure.error e) ∧
    handleApiError Failure.null customMessage w =
      (Except.error JSError.typeError,
        w.consoleError "API错误:" (ConsoleArg.failure Failure.null)) ∧
    handleApiError Failure.undefined customMessage w =
      (Except.error JSError.typeError,
        w.consoleError "API错误:" (ConsoleArg.failure Failure.undefined)) ∧
    (handleApiError Failure.null customMessage w).2.notifications = w.notifications ∧
    (handleApiError Failure.undefined customMessage w).2.notifications = w.notifications := by
  refine ⟨⟨_, handleApiError_error e customMessage w, rfl, ?_, ?_, rfl⟩, rfl, rfl, rfl, rfl⟩
  · intro r hr
    simp [AxiosError.status, hr]
  · intro hr
    simp [AxiosError.status, hr]

/-- C10: with the toast channel as an explicit log, a failed call of any operation of
`WorkflowService` or `CredentialService` appends exactly one notification, whose content
is the message of the normalised error, and calls `handleApiError` exactly once; a
successful call appends none; the response interceptor and the transport appends none. -/
theorem failed_call_emits_one_notification (c : ServiceCall) (remote : Remote) (w : World) :
    (∀ e, remote c.request = Except.error (Failure.error e) →
      ∃ n, (∀ w0, (handleApiError (Failure.error e) (some c.context) w0).1 = Except.ok n) ∧
        (c.run remote w).2.notifications = w.notifications ++ [n.message] ∧
        handleApiErrorCalls (c.run remote w).2 = handleApiErrorCalls w + 1) ∧
    (∀ r, remote c.request = Except.ok r →
      (c.run remote w).2.notifications = w.notifications) ∧
    (∀ outcome, (httpClient.responseInterceptor outcome w).2.notifications = w.notifications) ∧
    (∀ config, (httpClient.request remote config w).2.notifications = w.notifications) := by
  refine ⟨?_, ?_, ?_, ?_⟩
  · intro e h
    obtain ⟨w0, hnote, hcalls, hrun⟩ := ServiceCall.run_error c remote w e h
    refine ⟨_, fun w1 => by rw [handleApiError_error], ?_, ?_⟩
    · rw [hrun, handleApiError_error]
      simp [World.messageError, World.consoleError, hnote]
    · rw [hrun]
      simp only
      rw [handleApiErrorCalls_handleApiError, hcalls]
  · intro r h
    exact (ServiceCall.run_ok c remote w r h).2.1
  · intro outcome
    cases outcome <;> rfl
  · intro config
    simp only [httpClient.request]
    cases remote (httpClient.requestInterceptor config) <;> rfl

/-- Witness for C10: a failed update of credential 3 shows one toast, with the text of
the normalised error; a successful read of workflow 3 shows none. -/
theorem failed_call_emits_one_notification_witness :
    (∃ n,
      (∀ w0, (handleApiError (Failure.error unavailableFailure) (some "更新凭证失败") w0).1 =
        Except.ok n) ∧
      ((ServiceCall.updateCredential "3" JSValue.null).run (failingRemote unavailableFailure)
          World.empty).2.notifications = [] ++ [n.message] ∧
      handleApiErrorCalls ((ServiceCall.updateCredential "3" JSValue.null).run
          (failingRemote unavailableFailure) World.empty).2 = 0 + 1) ∧
    ((ServiceCall.getWorkflow "3").run (answeringRemote ⟨some 200, JSValue.null⟩)
        World.empty).2.notifications = [] :=
  ⟨(failed_call_emits_one_notification (ServiceCall.updateCredential "3" JSValue.null)
      (failingRemote unavailableFailure) World.empty).1 unavailableFailure rfl,
    (failed_call_emits_one_notification (ServiceCall.getWorkflow "3")
      (answeringRemote ⟨some 200, JSValue.null⟩) World.empty).2.1 _ rfl⟩

/-! ## The list pages -/

theorem Chatflows.run_cons_chatflows (c : Chatflows.Controller) (e : Chatflows.Event)
    (es : List Chatflows.Event) (c1 : Chatflows.Controller)
    (h : Chatflows.run c (e :: es) = some c1) :
    ∃ c0, Chatflows.step c e = some c0 ∧ Chatflows.run c0 es = some c1 := by
  simp only [Chatflows.run] at h
  cases hs : Chatflows.step c e with
  | none => simp [hs] at h
  | some c0 => exact ⟨c0, rfl, by simpa [hs] using h⟩

theorem Credentials.run_cons_credentials (c : Credentials.Controller) (e : Credentials.Event)
    (es : List Credentials.Event) (c1 : Credentials.Controller)
    (h : Credentials.run c (e :: es) = some c1) :
    ∃ c0, Credentials.step c e = some c0 ∧ Credentials.run c0 es = some c1 := by
  simp only [Credentials.run] at h
  cases hs : Credentials.step c e with
  | none => simp [hs] at h
  | some c0 => exact ⟨c0, rfl, by simpa [hs] using h⟩

theorem Chatflows.run_workflows (es : List Chatflows.Event) :
    ∀ c c1 : Chatflows.Controller, Chatflows.run c es = some c1 →
      c1.state.workflows = (Chatflows.lastResolved es).getD c.state.workflows := by
  induction es with
  | nil =>
    intro c c1 h
    simp only [Chatflows.run, Option.some.injEq] at h
    simp [Chatflows.lastResolved, h]
  | cons e es ih =>
    intro c c1 h
    obtain ⟨c0, hs, hr⟩ := Chatflows.run_cons_chatflows c e es c1 h
    have h1 := ih c0 c1 hr
    simp only [Chatflows.lastResolved]
    cases hl : Chatflows.lastResolved es with
    | some p => simpa [hl] using h1
    | none =>
      rw [hl] at h1
      simp only [Option.getD_none] at h1
      rw [h1]
      cases e <;> simp only [Chatflows.step] at hs <;>
        first
        | (split at hs <;> simp only [Option.some.injEq, reduceCtorEq] at hs <;>
            subst hs <;> simp [Chatflows.fetchStart, Chatflows.fetchSettled])
        | (simp only [Option.some.injEq] at hs; subst hs; simp)

theorem Credentials.run_credentials (es : List Credentials.Event) :
    ∀ c c1 : Credentials.Controller, Credentials.run c es = some c1 →
      c1.state.credentials = (Credentials.lastResolved es).getD c.state.credentials := by
  induction es with
  | nil =>
    intro c c1 h
    simp only [Credentials.run, Option.some.injEq] at h
    simp [Credentials.lastResolved, h]
  | cons e es ih =>
    intro c c1 h
    obtain ⟨c0, hs, hr⟩ := Credentials.run_cons_credentials c e es c1 h
    have h1 := ih c0 c1 hr
    simp only [Credentials.lastResolved]
    cases hl : Credentials.lastResolved es with
    | some p => simpa [hl] using h1
    | none =>
      rw [hl] at h1
      simp only [Option.getD_none] at h1
      rw [h1]
      cases e <;> simp only [Credentials.step] at hs
      all_goals split at hs
      all_goals simp only [Option.some.injEq, reduceCtorEq] at hs
      all_goals subst hs
      all_goals simp [Credentials.fetchStart, Credentials.fetchSettled]

/-- C5 as stated fails: with request 1 issued before request 0 resolves and request 1
resolving first, the response of the superseded request 0 is written, leaves `items` equal
to the payload of request 0 and not of request 1, on both pages. -/
theorem later_issued_wins_counterexample :
    (∃ c, Chatflows.run Chatflows.Controller.initial
        [Chatflows.Event.issue 0, Chatflows.Event.issue 1,
          Chatflows.Event.resolve 1 payloadBar, Chatflows.Event.resolve 0 payloadFoo] = some c ∧
      c.state.workflows = payloadFoo ∧ c.state.workflows ≠ payloadBar) ∧
    (∃ c, Credentials.run Credentials.Controller.initial
        [Credentials.Event.issue 0, Credentials.Event.issue 1,
          Credentials.Event.resolve 1 payloadBar, Credentials.Event.resolve 0 payloadFoo] =
          some c ∧
      c.state.credentials = payloadFoo ∧ c.state.credentials ≠ payloadBar) := by
  constructor
  · refine ⟨_, rfl, rfl, ?_⟩
    simp [Chatflows.fetchSettled, payloadFoo, payloadBar]
  · refine ⟨_, rfl, rfl, ?_⟩
    simp [Credentials.fetchSettled, payloadFoo, payloadBar]

/-- C5, amended: on both pages every response that arrives is written (`items` set,
`loading` cleared, and on the Chatflows page `error` cleared), so after any event sequence
the final `items` is the payload of the response that resolved last; with request k+1
issued before request k resolves and both resolving successfully, the final `items` is the
payload of request k+1 when request k resolves first and the payload of request k when
request k+1 resolves first. -/
theorem last_resolved_response_wins :
    (∀ (c c1 : Chatflows.Controller) (es : List Chatflows.Event),
      Chatflows.run c es = some c1 →
        c1.state.workflows = (Chatflows.lastResolved es).getD c.state.workflows) ∧
    (∀ (c c1 : Credentials.Controller) (es : List Credentials.Event),
      Credentials.run c es = some c1 →
        c1.state.credentials = (Credentials.lastResolved es).getD c.state.credentials) ∧
    (∀ (c : Chatflows.Controller) (p q : JSValue), ∃ c1 c2,
      Chatflows.run c [Chatflows.Event.issue c.issued, Chatflows.Event.issue (c.issued + 1),
        Chatflows.Event.resolve c.issued p, Chatflows.Event.resolve (c.issued + 1) q] =
        some c1 ∧
      c1.state.workflows = q ∧ c1.state.loading = false ∧ c1.state.error = none ∧
      Chatflows.run c [Chatflows.Event.issue c.issued, Chatflows.Event.issue (c.issued + 1),
        Chatflows.Event.resolve (c.issued + 1) q, Chatflows.Event.resolve c.issued p] =
        some c2 ∧
      c2.state.workflows = p ∧ c2.state.loading = false ∧ c2.state.error = none) ∧
    (∀ (c : Credentials.Controller) (p q : JSValue), ∃ c1 c2,
      Credentials.run c
        [Credentials.Event.issue c.issued, Credentials.Event.issue (c.issued + 1),
          Credentials.Event.resolve c.issued p, Credentials.Event.resolve (c.issued + 1) q] =
        some c1 ∧
      c1.state.credentials = q ∧ c1.state.loading = false ∧
      Credentials.run c
        [Credentials.Event.issue c.issued, Credentials.Event.issue (c.issued + 1),
          Credentials.Event.resolve (c.issued + 1) q, Credentials.Event.resolve c.issued p] =
        some c2 ∧
      c2.state.credentials = p ∧ c2.state.loading = false) := by
  refine ⟨fun c c1 es h => Chatflows.run_workflows es c c1 h,
    fun c c1 es h => Credentials.run_credentials es c c1 h, ?_, ?_⟩
  · intro c p q
    have h1 : c.issued + 1 ∈ ((c.pending ++ [c.issued]) ++ [c.issued + 1]).erase c.issued :=
      (List.mem_erase_of_ne (by omega)).mpr (by simp)
    have h2 : c.issued ∈ ((c.pending ++ [c.issued]) ++ [c.issued + 1]).erase (c.issued + 1) :=
      (List.mem_erase_of_ne (by omega)).mpr (by simp)
    refine ⟨⟨Chatflows.fetchSettled (Except.ok q) (Chatflows.fetchSettled (Except.ok p)
          (Chatflows.fetchStart (Chatflows.fetchStart c.state))), c.issued + 1 + 1,
        (((c.pending ++ [c.issued]) ++ [c.issued + 1]).erase c.issued).erase (c.issued + 1)⟩,
      ⟨Chatflows.fetchSettled (Except.ok p) (Chatflows.fetchSettled (Except.ok q)
          (Chatflows.fetchStart (Chatflows.fetchStart c.state))), c.issued + 1 + 1,
        (((c.pending ++ [c.issued]) ++ [c.issued + 1]).erase (c.issued + 1)).erase c.issued⟩,
      ?_, rfl, rfl, rfl, ?_, rfl, rfl, rfl⟩
    · simp [Chatflows.run, Chatflows.step, h1]
    · simp [Chatflows.run, Chatflows.step, h2]
  · intro c p q
    have h1 : c.issued + 1 ∈ ((c.pending ++ [c.issued]) ++ [c.issued + 1]).erase c.issued :=
      (List.mem_erase_of_ne (by omega)).mpr (by simp)
    have h2 : c.issued ∈ ((c.pending ++ [c.issued]) ++ [c.issued + 1]).erase (c.issued + 1) :=
      (List.mem_erase_of_ne (by omega)).mpr (by simp)
    refine ⟨⟨Credentials.fetchSettled (Except.ok q) (Credentials.fetchSettled (Except.ok p)
          (Credentials.fetchStart (Credentials.fetchStart c.state))), c.issued + 1 + 1,
        (((c.pending ++ [c.issued]) ++ [c.issued + 1]).erase c.issued).erase (c.issued + 1)⟩,
      ⟨Credentials.fetchSettled (Except.ok p) (Credentials.fetchSettled (Except.ok q)
          (Credentials.fetchStart (Credentials.fetchStart c.state))), c.issued + 1 + 1,
        (((c.pending ++ [c.issued]) ++ [c.issued + 1]).erase (c.issued + 1)).erase c.issued⟩,
      ?_, rfl, rfl, ?_, rfl, rfl⟩
    · simp [Credentials.run, Credentials.step, h1]
    · simp [Credentials.run, Credentials.step, h2]

theorem includes_empty (s : String) : includes s "" = true := by
  unfold includes
  cases s.data <;> simp [includesChars]

theorem Chatflows.lowerName_of_text (toLowerCase : String → String) (x : JSValue)
    (hx : (x.optField "name").TextOrFalsy) :
    Chatflows.lowerName toLowerCase x = Except.ok (toLowerCase x.nameText) := by
  unfold Chatflows.lowerName JSValue.nameText
  cases hn : x.optField "name" with
  | string s =>
    by_cases hs : s = ""
    · simp [JSValue.orElse, JSValue.truthy, hs]
    · simp [JSValue.orElse, JSValue.truthy, hs]
  | undefined => simp [JSValue.orElse, JSValue.truthy]
  | null => simp [JSValue.orElse, JSValue.truthy]
  | bool b =>
    have hb : b = false := by
      simpa [JSValue.TextOrFalsy, JSValue.isString, JSValue.truthy, hn] using hx
    simp [JSValue.orElse, JSValue.truthy, hb]
  | number n =>
    have hz : n = 0 := by
      simpa [JSValue.TextOrFalsy, JSValue.isString, JSValue.truthy, hn] using hx
    simp [JSValue.orElse, JSValue.truthy, hz]
  | array items =>
    simp [JSValue.TextOrFalsy, JSValue.isString, JSValue.truthy, hn] at hx
  | object fields =>
    simp [JSValue.TextOrFalsy, JSValue.isString, JSValue.truthy, hn] at hx

theorem filterArray_total (callback : JSValue → Except JSError Bool) (keep : JSValue → Bool)
    (items : List JSValue) (h : ∀ x ∈ items, callback x = Except.ok (keep x)) :
    filterArray callback items = Except.ok (items.filter keep) := by
  induction items with
  | nil => rfl
  | cons x xs ih =>
    have hx := h x (List.mem_cons_self x xs)
    have hxs := ih fun y hy => h y (List.mem_cons_of_mem x hy)
    simp only [filterArray, hx, hxs, List.filter_cons]

theorem Chatflows.filteredWorkflows_eq_filter (toLowerCase : String → String)
    (items : List JSValue) (searchText : String)
    (hItems : ∀ x ∈ items, (x.optField "name").TextOrFalsy) :
    Chatflows.filteredWorkflows toLowerCase (JSValue.array items) searchText =
      Except.ok (items.filter fun x =>
        includes (toLowerCase x.nameText) (toLowerCase searchText)) := by
  unfold Chatflows.filteredWorkflows
  apply filterArray_total
  intro x hx
  simp [Chatflows.matchesSearch, Chatflows.lowerName_of_text toLowerCase x (hItems x hx)]

theorem filterArray_raises (callback : JSValue → Except JSError Bool) (items : List JSValue)
    (x : JSValue) (hx : x ∈ items) (hraise : callback x = Except.error JSError.typeError) :
    filterArray callback items = Except.error JSError.typeError := by
  induction items with
  | nil => cases hx
  | cons y ys ih =>
    simp only [filterArray]
    cases hy : callback y with
    | error t => cases t; rfl
    | ok b =>
      have hmem : x ∈ ys := by
        rcases List.mem_cons.mp hx with h | h
        · subst h
          rw [hraise] at hy
          cases hy
        · exact h
      simp only [ih hmem]

theorem Chatflows.lowerName_raises (toLowerCase : String → String) (x : JSValue)
    (hx : ¬ (x.optField "name").TextOrFalsy) :
    Chatflows.lowerName toLowerCase x = Except.error JSError.typeError := by
  unfold Chatflows.lowerName
  cases hn : x.optField "name" <;>
    simp_all [JSValue.TextOrFalsy, JSValue.isString, JSValue.truthy, JSValue.orElse]

theorem Chatflows.filteredWorkflows_raises (toLowerCase : String → String)
    (items : List JSValue) (searchText : String)
    (hItems : ∃ x ∈ items, ¬ (x.optField "name").TextOrFalsy) :
    Chatflows.filteredWorkflows toLowerCase (JSValue.array items) searchText =
      Except.error JSError.typeError := by
  obtain ⟨x, hx, hbad⟩ := hItems
  unfold Chatflows.filteredWorkflows
  apply filterArray_raises _ items x hx
  simp [Chatflows.matchesSearch, Chatflows.lowerName_raises toLowerCase x hbad]

/-- C6 as stated fails: on the items `[{id: 1, name: "a"}, {id: 2, name: 5}]` the filtered
view with the empty search text is not computed at all: the filter raises a `TypeError`. -/
theorem filteredWorkflows_empty_search_counterexample :
    Chatflows.filteredWorkflows asciiLower
        (JSValue.array
          [JSValue.object [("id", JSValue.number 1), ("name", JSValue.string "a")],
            JSValue.object [("id", JSValue.number 2), ("name", JSValue.number 5)]]) "" =
      Except.error JSError.typeError ∧
    Chatflows.filteredWorkflows asciiLower
        (JSValue.array
          [JSValue.object [("id", JSValue.number 1), ("name", JSValue.string "a")],
            JSValue.object [("id", JSValue.number 2), ("name", JSValue.number 5)]]) "" ≠
      Except.ok
        [JSValue.object [("id", JSValue.number 1), ("name", JSValue.string "a")],
          JSValue.object [("id", JSValue.number 2), ("name", JSValue.number 5)]] := by
  have h : Chatflows.filteredWorkflows asciiLower
      (JSValue.array
        [JSValue.object [("id", JSValue.number 1), ("name", JSValue.string "a")],
          JSValue.object [("id", JSValue.number 2), ("name", JSValue.number 5)]]) "" =
      Except.error JSError.typeError := rfl
  refine ⟨h, ?_⟩
  rw [h]
  simp

/-- C6, amended: for every sequence of items in which every name is a string or is falsy
(missing, `null`, empty, ...), the filtered view of the Chatflows page computed with the
empty search text is the sequence itself: same elements, same order, nothing dropped. When
some item has a truthy name that is not a string, computing the view raises a `TypeError`.
The lower-casing of the empty text is the empty text. -/
theorem filteredWorkflows_empty_search (toLowerCase : String → String) (items : List JSValue)
    (hLower : toLowerCase "" = "") :
    ((∀ x ∈ items, (x.optField "name").TextOrFalsy) →
      Chatflows.filteredWorkflows toLowerCase (JSValue.array items) "" = Except.ok items) ∧
    ((∃ x ∈ items, ¬ (x.optField "name").TextOrFalsy) →
      Chatflows.filteredWorkflows toLowerCase (JSValue.array items) "" =
        Except.error JSError.typeError) := by
  constructor
  · intro hItems
    rw [Chatflows.filteredWorkflows_eq_filter toLowerCase items "" hItems, hLower]
    simp [includes_empty]
  · intro hItems
    exact Chatflows.filteredWorkflows_raises toLowerCase items "" hItems

/-- Witness for C6, amended: one item with a name, one with an empty name, one without a
name and one that is `null`. -/
theorem filteredWorkflows_empty_search_witness :
    Chatflows.filteredWorkflows asciiLower
        (JSValue.array
          [JSValue.object [("id", JSValue.number 1), ("name", JSValue.string "Foo")],
            JSValue.object [("id", JSValue.number 2), ("name", JSValue.string "")],
            JSValue.object [("id", JSValue.number 3)],
            JSValue.null]) "" =
      Except.ok
        [JSValue.object [("id", JSValue.number 1), ("name", JSValue.string "Foo")],
          JSValue.object [("id", JSValue.number 2), ("name", JSValue.string "")],
          JSValue.object [("id", JSValue.number 3)],
          JSValue.null] :=
  (filteredWorkflows_empty_search asciiLower _ rfl).1 (by
    intro x hx
    simp only [List.mem_cons, List.mem_singleton, List.not_mem_nil, or_false] at hx
    rcases hx with h | h | h | h <;> subst h
    · exact Or.inl rfl
    · exact Or.inl rfl
    · exact Or.inr rfl
    · exact Or.inr rfl)

/-- C7 as stated fails: on the items `[{name: "Cab"}, {name: 5}]` the filter raises a
`TypeError` for the search text `"AB"`, so the result is no subsequence of the items. -/
theorem filteredWorkflows_subsequence_counterexample :
    Chatflows.filteredWorkflows asciiLower
        (JSValue.array
          [JSValue.object [("name", JSValue.string "Cab")],
            JSValue.object [("name", JSValue.number 5)]]) "AB" =
      Except.error JSError.typeError ∧
    ∀ view, Chatflows.filteredWorkflows asciiLower
        (JSValue.array
          [JSValue.object [("name", JSValue.string "Cab")],
            JSValue.object [("name", JSValue.number 5)]]) "AB" ≠ Except.ok view := by
  have h : Chatflows.filteredWorkflows asciiLower
      (JSValue.array
        [JSValue.object [("name", JSValue.string "Cab")],
          JSValue.object [("name", JSValue.number 5)]]) "AB" =
      Except.error JSError.typeError := rfl
  refine ⟨h, ?_⟩
  intro view
  rw [h]
  simp

/-- C7, amended: the filtered view of the Chatflows page is case-insensitive: for every
sequence of items and every two search texts with the same lower-casing, the two
computations agree (the same view, or both raise). When every name is a string or is falsy,
the view consists of exactly the items whose lower-cased name contains the lower-cased
search text, in the order of `items`. When some item has a truthy name that is not a
string, the computation raises a `TypeError` for every search text. -/
theorem filteredWorkflows_case_insensitive (toLowerCase : String → String)
    (items : List JSValue) (a b : String)
    (hCase : toLowerCase a = toLowerCase b) :
    Chatflows.filteredWorkflows toLowerCase (JSValue.array items) a =
        Chatflows.filteredWorkflows toLowerCase (JSValue.array items) b ∧
      ((∀ x ∈ items, (x.optField "name").TextOrFalsy) →
        ∃ view, Chatflows.filteredWorkflows toLowerCase (JSValue.array items) a =
            Except.ok view ∧
          view = items.filter (fun x => includes (toLowerCase x.nameText) (toLowerCase a)) ∧
          List.Sublist view items ∧
          ∀ x, x ∈ view ↔
            x ∈ items ∧ includes (toLowerCase x.nameText) (toLowerCase a) = true) ∧
      ((∃ x ∈ items, ¬ (x.optField "name").TextOrFalsy) →
        ∀ searchText, Chatflows.filteredWorkflows toLowerCase (JSValue.array items)
          searchText = Except.error JSError.typeError) := by
  refine ⟨?_, ?_, ?_⟩
  · have hcb : Chatflows.matchesSearch toLowerCase a = Chatflows.matchesSearch toLowerCase b := by
      funext x
      simp only [Chatflows.matchesSearch, hCase]
    simp only [Chatflows.filteredWorkflows, hcb]
  · intro hItems
    refine ⟨_, Chatflows.filteredWorkflows_eq_filter toLowerCase items a hItems, rfl,
      List.filter_sublist items, ?_⟩
    intro x
    simp [List.mem_filter]
  · intro hItems searchText
    exact Chatflows.filteredWorkflows_raises toLowerCase items searchText hItems

/-- Witness for C7, amended: the search texts `"AB"` and `"ab"` over the names `"Cab"`,
`"xyz"` and `"ABBA"`. -/
theorem filteredWorkflows_case_insensitive_witness :
    Chatflows.filteredWorkflows asciiLower
        (JSValue.array
          [JSValue.object [("name", JSValue.string "Cab")],
            JSValue.object [("name", JSValue.string "xyz")],
            JSValue.object [("name", JSValue.string "ABBA")]]) "AB" =
      Except.ok
        [JSValue.object [("name", JSValue.string "Cab")],
          JSValue.object [("name", JSValue.string "ABBA")]] ∧
    Chatflows.filteredWorkflows asciiLower
        (JSValue.array
          [JSValue.object [("name", JSValue.string "Cab")],
            JSValue.object [("name", JSValue.string "xyz")],
            JSValue.object [("name", JSValue.string "ABBA")]]) "AB" =
      Chatflows.filteredWorkflows asciiLower
        (JSValue.array
          [JSValue.object [("name", JSValue.string "Cab")],
            JSValue.object [("name", JSValue.string "xyz")],
            JSValue.object [("name", JSValue.string "ABBA")]]) "ab" :=
  ⟨rfl, (filteredWorkflows_case_insensitive asciiLower _ "AB" "ab" (by decide)).1⟩

/-! ## The component service -/

/-- C11: the component service does not normalise and swallow. For every transport failure answering its request, each of the four operations
(`getAllComponents`, `getComponentsByType`, `getComponentTypes`, `getComponentCategories`)
rejects with that failure itself and returns no value; the failure passes the response
interceptor only, `handleApiError` is not called and no notification is shown, unlike the
reads of the workflow and credential services. A fulfilled request returns the body of the
response and writes nothing. -/
theorem component_calls_propagate (c : ComponentCall) (remote : Remote) (w : World) :
    (∀ e, remote c.request = Except.error (Failure.error e) →
      c.run remote w =
          (Except.error (Thrown.failure (Failure.error e)),
            w.consoleError "请求错误:" (ConsoleArg.failure (Failure.error e))) ∧
        (∀ v, (c.run remote w).1 ≠ Except.ok v) ∧
        (c.run remote w).2.notifications = w.notifications ∧
        handleApiErrorCalls (c.run remote w).2 = handleApiErrorCalls w) ∧
    (∀ r, remote c.request = Except.ok r → c.run remote w = (Except.ok r.data, w)) := by
  constructor
  · intro e h
    have hrun : c.run remote w =
        (Except.error (Thrown.failure (Failure.error e)),
          w.consoleError "请求错误:" (ConsoleArg.failure (Failure.error e))) := by
      cases c <;> simp only [ComponentCall.request] at h <;>
        simp only [ComponentCall.run, ComponentService.getAllComponents,
          ComponentService.getComponentsByType, ComponentService.getComponentTypes,
          ComponentService.getComponentCategories, httpClient.get, httpClient.request_error h]
    refine ⟨hrun, ?_, ?_, ?_⟩
    · intro v hv
      rw [hrun] at hv
      cases hv
    · rw [hrun]
      rfl
    · rw [hrun]
      simp [handleApiErrorCalls, World.consoleError]
  · intro r h
    cases c <;> simp only [ComponentCall.request] at h <;>
      simp only [ComponentCall.run, ComponentService.getAllComponents,
        ComponentService.getComponentsByType, ComponentService.getComponentTypes,
        ComponentService.getComponentCategories, httpClient.get, httpClient.request_ok h]

/-- The failing input of C11: `getAllComponents()` while the network is down rejects
with the network failure, with no call of `handleApiError` and no notification, where the
sibling read `getAllWorkflows()` returns the empty sequence after one notification. -/
theorem component_calls_propagate_witness :
    ComponentService.getAllComponents (failingRemote networkFailure) World.empty =
        (Except.error (Thrown.failure (Failure.error networkFailure)),
          World.empty.consoleError "请求错误:"
            (ConsoleArg.failure (Failure.error networkFailure))) ∧
      (∀ v, (ComponentService.getAllComponents (failingRemote networkFailure)
        World.empty).1 ≠ Except.ok v) ∧
      (ComponentService.getAllComponents (failingRemote networkFailure)
        World.empty).2.notifications = [] ∧
      handleApiErrorCalls (ComponentService.getAllComponents (failingRemote networkFailure)
        World.empty).2 = 0 ∧
      (WorkflowService.getAllWorkflows (failingRemote networkFailure) World.empty).1 =
        Except.ok (JSValue.array []) ∧
      (WorkflowService.getAllWorkflows (failingRemote networkFailure)
        World.empty).2.notifications = [JSValue.string "获取工作流列表失败"] :=
  ⟨((component_calls_propagate ComponentCall.getAllComponents (failingRemote networkFailure)
      World.empty).1 networkFailure rfl).1,
    ((component_calls_propagate ComponentCall.getAllComponents (failingRemote networkFailure)
      World.empty).1 networkFailure rfl).2.1,
    ((component_calls_propagate ComponentCall.getAllComponents (failingRemote networkFailure)
      World.empty).1 networkFailure rfl).2.2.1,
    ((component_calls_propagate ComponentCall.getAllComponents (failingRemote networkFailure)
      World.empty).1 networkFailure rfl).2.2.2,
    rfl, rfl⟩

/-! ## A whole fetch of the Chatflows page -/

theorem getAllWorkflows_fulfilled (remote : Remote) (w : World) (r : AxiosResponse)
    (h : remote ⟨Method.GET, "workflows/", none⟩ = Except.ok r) :
    WorkflowService.getAllWorkflows remote w =
      (Except.ok r.data,
        (w.consoleLog "正在请求工作流列表..." ConsoleArg.absent).consoleLog "请求成功:"
          (ConsoleArg.response r)) := by
  simp only [WorkflowService.getAllWorkflows, httpClient.get, httpClient.request_ok h]

theorem getAllWorkflows_rejected (remote : Remote) (w : World) (e : AxiosError)
    (h : remote ⟨Method.GET, "workflows/", none⟩ = Except.error (Failure.error e)) :
    (WorkflowService.getAllWorkflows remote w).1 = Except.ok (JSValue.array []) ∧
      (WorkflowService.getAllWorkflows remote w).2.notifications =
        w.notifications ++ [JSValue.string "获取工作流列表失败"] := by
  obtain ⟨w0, hnote, _, hrun⟩ := ServiceCall.run_error ServiceCall.getAllWorkflows remote w e h
  have hrun2 : WorkflowService.getAllWorkflows remote w =
      (Except.ok (JSValue.array []),
        (handleApiError (Failure.error e) (some "获取工作流列表失败") w0).2) := hrun
  rw [hrun2, handleApiError_error]
  refine ⟨rfl, ?_⟩
  simp [World.messageError, World.consoleError, hnote, JSValue.orElse, JSValue.ofOptString,
    JSValue.truthy]

/-- C12: for every payload sequence `p` with which the list request is answered
successfully (the client fulfils exactly for a 2xx answer), `getAllWorkflows` returns `p`
itself, and the Chatflows page, started from its initial state, ends with `items = p`,
`loading = false` and `error = null`, that is, in the state `Ready`. -/
theorem list_success_reaches_ready (remote : Remote) (w : World) (status : Option Int)
    (p : List JSValue)
    (h : remote ⟨Method.GET, "workflows/", none⟩ = Except.ok ⟨status, JSValue.array p⟩) :
    (WorkflowService.getAllWorkflows remote w).1 = Except.ok (JSValue.array p) ∧
      (Chatflows.fetchWorkflows remote Chatflows.initial w).1.workflows = JSValue.array p ∧
      (Chatflows.fetchWorkflows remote Chatflows.initial w).1.loading = false ∧
      (Chatflows.fetchWorkflows remote Chatflows.initial w).1.error = none ∧
      (Chatflows.fetchWorkflows remote Chatflows.initial w).1.isReady ∧
      ∃ c, Chatflows.run Chatflows.Controller.initial
          [Chatflows.Event.issue 0, Chatflows.Event.resolve 0 (JSValue.array p)] = some c ∧
        c.state = (Chatflows.fetchWorkflows remote Chatflows.initial w).1 ∧
        c.pending = [] := by
  have hs := getAllWorkflows_fulfilled remote w _ h
  have hf : (Chatflows.fetchWorkflows remote Chatflows.initial w).1 =
      ⟨JSValue.array p, Chatflows.ViewMode.grid, "", false, none⟩ := by
    simp only [Chatflows.fetchWorkflows, hs]
    rfl
  refine ⟨by rw [hs], by rw [hf], by rw [hf], by rw [hf], ?_, ?_⟩
  · rw [hf]
    exact ⟨rfl, rfl⟩
  · rw [hf]
    exact ⟨_, rfl, rfl, rfl⟩

/-- Witness for C12: the remote answers 200 with `[{id: 1, name: "Foo"}]`. -/
theorem list_success_reaches_ready_witness :
    (WorkflowService.getAllWorkflows (answeringRemote ⟨some 200, payloadFoo⟩) World.empty).1 =
        Except.ok payloadFoo ∧
      (Chatflows.fetchWorkflows (answeringRemote ⟨some 200, payloadFoo⟩) Chatflows.initial
        World.empty).1.workflows = payloadFoo ∧
      (Chatflows.fetchWorkflows (answeringRemote ⟨some 200, payloadFoo⟩) Chatflows.initial
        World.empty).1.loading = false ∧
      (Chatflows.fetchWorkflows (answeringRemote ⟨some 200, payloadFoo⟩) Chatflows.initial
        World.empty).1.error = none ∧
      (Chatflows.fetchWorkflows (answeringRemote ⟨some 200, payloadFoo⟩) Chatflows.initial
        World.empty).1.isReady ∧
      ∃ c, Chatflows.run Chatflows.Controller.initial
          [Chatflows.Event.issue 0, Chatflows.Event.resolve 0 payloadFoo] = some c ∧
        c.state = (Chatflows.fetchWorkflows (answeringRemote ⟨some 200, payloadFoo⟩)
          Chatflows.initial World.empty).1 ∧
        c.pending = [] :=
  list_success_reaches_ready (answeringRemote ⟨some 200, payloadFoo⟩) World.empty (some 200)
    [JSValue.object [("id", JSValue.number 1), ("name", JSValue.string "Foo")]] rfl

/-- C13 as stated fails: when the list request fails during a fetch of the Chatflows page,
the page ends with `loading = false` and empty items, but `error` is `null`, not the inline
error text: the page is in the state `Ready`, not `Failed`. -/
theorem list_failure_reaches_failed_counterexample :
    (Chatflows.fetchWorkflows (failingRemote networkFailure) Chatflows.initial
        World.empty).1.error = none ∧
      (Chatflows.fetchWorkflows (failingRemote networkFailure) Chatflows.initial
        World.empty).1.error ≠ some Chatflows.loadError ∧
      (Chatflows.fetchWorkflows (failingRemote networkFailure) Chatflows.initial
        World.empty).1.isReady ∧
      ¬ (Chatflows.fetchWorkflows (failingRemote networkFailure) Chatflows.initial
        World.empty).1.isFailed := by
  have hf : (Chatflows.fetchWorkflows (failingRemote networkFailure) Chatflows.initial
      World.empty).1 = ⟨JSValue.array [], Chatflows.ViewMode.grid, "", false, none⟩ := rfl
  rw [hf]
  refine ⟨rfl, ?_, ⟨rfl, rfl⟩, ?_⟩
  · simp
  · simp [Chatflows.State.isFailed]

/-- C13, amended: when the list request fails (any transport failure) during a fetch of
the Chatflows page, from whatever state the fetch starts, the page ends with
`loading = false`, items set to the empty sequence and `error = null`, that is, in the state
`Ready` and not `Failed`; search text and view mode are unchanged, and the failure shows as
exactly one notification, with the text of the list operation. -/
theorem list_failure_degrades_to_empty (remote : Remote) (w : World) (e : AxiosError)
    (s : Chatflows.State)
    (h : remote ⟨Method.GET, "workflows/", none⟩ = Except.error (Failure.error e)) :
    (Chatflows.fetchWorkflows remote s w).1 =
        ⟨JSValue.array [], s.viewMode, s.searchText, false, none⟩ ∧
      (Chatflows.fetchWorkflows remote s w).1.isReady ∧
      ¬ (Chatflows.fetchWorkflows remote s w).1.isFailed ∧
      (Chatflows.fetchWorkflows remote s w).2.notifications =
        w.notifications ++ [JSValue.string "获取工作流列表失败"] := by
  obtain ⟨h1, h2⟩ := getAllWorkflows_rejected remote w e h
  have hf : (Chatflows.fetchWorkflows remote s w).1 =
      ⟨JSValue.array [], s.viewMode, s.searchText, false, none⟩ := by
    simp only [Chatflows.fetchWorkflows]
    rw [h1]
    rfl
  refine ⟨hf, ?_, ?_, h2⟩
  · rw [hf]
    exact ⟨rfl, rfl⟩
  · rw [hf]
    simp [Chatflows.State.isFailed]

/-- Witness for C13, amended: a 503 rejection while the page shows `[{id: 1, name: "Foo"}]`
and an earlier error. -/
theorem list_failure_degrades_to_empty_witness :
    (Chatflows.fetchWorkflows (failingRemote unavailableFailure)
          ⟨payloadFoo, Chatflows.ViewMode.list, "fo", false, some Chatflows.loadError⟩
          World.empty).1 =
        ⟨JSValue.array [], Chatflows.ViewMode.list, "fo", false, none⟩ ∧
      (Chatflows.fetchWorkflows (failingRemote unavailableFailure)
          ⟨payloadFoo, Chatflows.ViewMode.list, "fo", false, some Chatflows.loadError⟩
          World.empty).1.isReady ∧
      ¬ (Chatflows.fetchWorkflows (failingRemote unavailableFailure)
          ⟨payloadFoo, Chatflows.ViewMode.list, "fo", false, some Chatflows.loadError⟩
          World.empty).1.isFailed ∧
      (Chatflows.fetchWorkflows (failingRemote unavailableFailure)
          ⟨payloadFoo, Chatflows.ViewMode.list, "fo", false, some Chatflows.loadError⟩
          World.empty).2.notifications =
        World.empty.notifications ++ [JSValue.string "获取工作流列表失败"] :=
  list_failure_degrades_to_empty (failingRemote unavailableFailure) World.empty
    unavailableFailure _ rfl

/-! ## The error cell of the Chatflows page -/

/-- The effect of one step on the error cell: a resolved call clears it, a rejected call
sets the load-error text, every other step leaves it as it is. -/
theorem Chatflows.step_error (c c0 : Chatflows.Controller) (e : Chatflows.Event)
    (h : Chatflows.step c e = some c0) :
    c0.state.error =
      match e with
      | Chatflows.Event.resolve _ _ => none
      | Chatflows.Event.reject _ _ => some Chatflows.loadError
      | _ => c.state.error := by
  cases e <;> simp only [Chatflows.step] at h
  all_goals try split at h
  all_goals simp only [Option.some.injEq, reduceCtorEq] at h
  all_goals subst h
  all_goals simp [Chatflows.fetchStart, Chatflows.fetchSettled]

theorem Chatflows.run_error_cell (es : List Chatflows.Event) :
    ∀ c c1 : Chatflows.Controller, Chatflows.run c es = some c1 →
      c1.state.error =
        match Chatflows.lastSettledRejected es with
        | some true => some Chatflows.loadError
        | some false => none
        | none => c.state.error := by
  induction es with
  | nil =>
    intro c c1 h
    simp only [Chatflows.run, Option.some.injEq] at h
    simp [Chatflows.lastSettledRejected, h]
  | cons e es ih =>
    intro c c1 h
    obtain ⟨c0, hs, hr⟩ := Chatflows.run_cons_chatflows c e es c1 h
    have h1 := ih c0 c1 hr
    have h0 := Chatflows.step_error c c0 e hs
    simp only [Chatflows.lastSettledRejected]
    cases hl : Chatflows.lastSettledRejected es with
    | some b =>
      rw [hl] at h1
      cases b <;> exact h1
    | none =>
      rw [hl] at h1
      simp only at h1
      rw [h1, h0]
      cases e <;> rfl

/-- C14 as stated fails: after a fetch whose service call rejected, starting a new fetch
gives a reachable state with `loading = true` and the earlier error still set. -/
theorem loading_implies_no_error_counterexample :
    ∃ c, Chatflows.run Chatflows.Controller.initial
        [Chatflows.Event.issue 0,
          Chatflows.Event.reject 0 (Thrown.runtime JSError.typeError),
          Chatflows.Event.issue 1] = some c ∧
      c.state.loading = true ∧ c.state.error = some Chatflows.loadError ∧
      c.state.error ≠ none := by
  refine ⟨_, rfl, rfl, rfl, ?_⟩
  simp [Chatflows.fetchStart, Chatflows.fetchSettled]

/-- C14, amended: in every state of the Chatflows page reachable from the initial state by
the steps start a fetch, a list service call resolves with data, a list service call
rejects, set search text and set view mode, `error` is `null` when no call has settled yet
or the call that settled last resolved with data, and is the load-error text when the call
that settled last rejected; so `loading = true` implies `error = null` in the states
reached without a rejection after the last resolved call. Starting a fetch sets
`loading = true` and leaves `error` as it was; only a call that resolves with data clears
it. -/
theorem error_follows_last_settled_call :
    (∀ (es : List Chatflows.Event) (c : Chatflows.Controller),
      Chatflows.run Chatflows.Controller.initial es = some c →
        c.state.error =
          match Chatflows.lastSettledRejected es with
          | some true => some Chatflows.loadError
          | _ => none) ∧
    (∀ (es : List Chatflows.Event) (c : Chatflows.Controller),
      Chatflows.run Chatflows.Controller.initial es = some c →
        Chatflows.lastSettledRejected es ≠ some true →
          c.state.loading = true → c.state.error = none) ∧
    (∀ c : Chatflows.Controller, ∃ c1,
      Chatflows.step c (Chatflows.Event.issue c.issued) = some c1 ∧
        c1.state.loading = true ∧ c1.state.error = c.state.error) ∧
    (∀ (c c1 : Chatflows.Controller) (k : Nat) (p : JSValue),
      Chatflows.step c (Chatflows.Event.resolve k p) = some c1 →
        c1.state.error = none ∧ c1.state.loading = false) := by
  have key : ∀ (es : List Chatflows.Event) (c : Chatflows.Controller),
      Chatflows.run Chatflows.Controller.initial es = some c →
        c.state.error =
          match Chatflows.lastSettledRejected es with
          | some true => some Chatflows.loadError
          | _ => none := by
    intro es c h
    have h1 := Chatflows.run_error_cell es _ c h
    rw [h1]
    cases hl : Chatflows.lastSettledRejected es with
    | none => rfl
    | some b => cases b <;> rfl
  refine ⟨key, ?_, ?_, ?_⟩
  · intro es c h hne _
    rw [key es c h]
    cases hl : Chatflows.lastSettledRejected es with
    | none => rfl
    | some b =>
      cases b with
      | false => rfl
      | true => exact absurd hl hne
  · intro c
    exact ⟨⟨Chatflows.fetchStart c.state, c.issued + 1, c.pending ++ [c.issued]⟩,
      by simp [Chatflows.step], rfl, rfl⟩
  · intro c c1 k p h
    simp only [Chatflows.step] at h
    split at h
    · simp only [Option.some.injEq] at h
      subst h
      exact ⟨rfl, rfl⟩
    · simp at h

end FlowPY
